import Mathlib

set_option maxRecDepth 1000000

/-! Verification of the `libhuff` cast-library generator (`src/codegen/main.rs`).

The generator manipulates Rust `String`s with appends and `str::replace`.
We model strings as Lean `String`/`List Char`.  The recursive workhorse
functions are defined through explicit recursors (`List.rec`, `Nat.rec`)
so that closed instances reduce efficiently inside the kernel; equation
lemmas restore the usual definitional reading. -/

/-- Tail-recursive length accumulator over a character list. -/
def lenGo (s : List Char) : Nat → Nat :=
  List.rec (motive := fun _ => Nat → Nat) (fun a => a) (fun _ _ ih => fun a => ih (a + 1)) s

/-- Length of a character list. -/
def lenL (s : List Char) : Nat := lenGo s 0

/-- Drop the first `n` characters. -/
def dropL (n : Nat) (s : List Char) : List Char :=
  Nat.rec (motive := fun _ => List Char → List Char) (fun s => s)
    (fun _ ih => fun s => List.casesOn s [] fun _ cs => ih cs) n s

/-- Character equality through the underlying code point. -/
def beqC (a b : Char) : Bool := a.val.toNat.beq b.val.toNat

/-- Test whether `p` is a prefix of the second list. -/
def isPre (p : List Char) : List Char → Bool :=
  List.rec (motive := fun _ => List Char → Bool) (fun _ => true)
    (fun c _ ih => fun s => List.casesOn s false fun d ds => beqC c d && ih ds) p

/-- One step of leftmost-first replacement: if the pattern matches here, emit
the replacement and continue after the match, otherwise keep one character. -/
def replaceStep (p r : List Char) (plen : Nat) (ih : List Char → List Char) (s : List Char) :
    List Char :=
  if isPre p s then r ++ ih (dropL plen s)
  else List.casesOn s [] fun c cs => c :: ih cs

/-- Fuelled replacement loop; with enough fuel this is exactly the
left-to-right, non-overlapping replacement performed by Rust `str::replace`. -/
def replaceGo (p r : List Char) (plen : Nat) : Nat → List Char → List Char :=
  Nat.rec (motive := fun _ => List Char → List Char) (fun s => s)
    (fun _ ih => replaceStep p r plen ih)

/-- Replace every (leftmost, non-overlapping) occurrence of `p` in `s` by `r`,
the byte-level model of Rust `str::replace`. -/
def replaceL (p r s : List Char) : List Char := replaceGo p r (lenL p) (lenL s) s

/-- String-level wrapper of `replaceL`, modelling `s.replace(pat, r)`. -/
def strReplace (s pat r : String) : String := ⟨replaceL pat.data r.data s.data⟩

/-- Scanning the positions inside `x` of the text `x ++ t`, does no occurrence
of `p` start there?  (Occurrences may extend from `x` into `t`.) -/
def noMatchScan (p : List Char) : List Char → List Char → Bool :=
  List.rec (motive := fun _ => List Char → Bool) (fun _ => true)
    (fun c cs ih => fun t => !(isPre p (c :: (cs ++ t))) && ih t)

/-- Does `p` occur anywhere in `s`? -/
def occursIn (p s : List Char) : Bool := !(noMatchScan p s [])

/-- Boolean equality of character lists. -/
def beqL (a : List Char) : List Char → Bool :=
  List.rec (motive := fun _ => List Char → Bool)
    (fun b => List.casesOn b true fun _ _ => false)
    (fun c _ ih => fun b => List.casesOn b false fun d ds => beqC c d && ih ds) a

/-- Boolean equality of strings. -/
def beqS (s t : String) : Bool := beqL s.data t.data

/-- Split a character list at newline characters; the result always has one
entry more than the number of newlines. -/
def linesOf (s : List Char) : List (List Char) :=
  List.rec (motive := fun _ => List (List Char)) [[]]
    (fun c _ ih =>
      if beqC c '\n' then [] :: ih
      else List.casesOn ih [[c]] fun l ls => (c :: l) :: ls) s

/-! ### The constant templates of `src/codegen/main.rs`, byte for byte -/

/-- Constant `HEADER` of the source file. -/
def HEADER : String :=
  "\n//  ------------------------------------------------------------------------------------------------\n//! # Casting Library\n//! \n//! Provides macros for casting values.\n//! \n//! Bit sizes supported range from 8 to 256 inclusive and are multiples of 8.\n//! \n//! Items prefixed with `UNSAFE_` will not revert on overflow.\n//! \n//! Items prefixed with `MINI_` will consume more runtime gas to the benefit of a smaller runtime\n//! size.\n//! \n//! ## API\n//! \n//! For a given type, `TYPENAME`:\n//! \n//! - `TYPENAME_MASK` - Used to downcast a value to a smaller type.\n//! - `TO_TYPENAME` - Downcasts a value to a smaller type.\n//! - `UNSAFE_TO_TYPENAME` - Downcasts a value to a smaller type.\n//! - `MINI_TYPENAME_MASK` - Used to downcast a value to a smaller type.\n//! - `MINI_TO_TYPENAME` - Downcasts a value to a smaller type.\n//! - `UNSAFE_MINI_TO_TYPENAME` - Downcasts a value to a smaller type.\n//! \n"

/-- Constant `ERROR_DEFINITION` of the source file. -/
def ERROR_DEFINITION : String :=
  "\n/// ## Overflow Error\n/// \n/// Thrown when a cast overflows.\n#define error Overflow()\n"

/-- Constant `MASK_TEMPLATE` of the source file. -/
def MASK_TEMPLATE : String :=
  "\n/// ## TYPENAME Mask\n/// \n/// Used to downcast a value to a smaller type.\n/// \n/// ### Usage\n/// \n/// ```huff\n/// #define macro MAIN() = takes (0) returns (0) \x7b\n///     0x00 calldataload\n///     TYPENAME_MASK() and\n/// \x7d\n/// ```\n#define macro TYPENAME_MASK() = takes (0) returns (1) \x7b TYPEMASK \x7d\n\n/// ## TYPENAME Cast\n/// \n/// Downcasts a value to a smaller type.\n/// \n/// The `UNSAFE_TO_TYPENAME` macro will not revert on overflow.\n#define macro TO_TYPENAME() = takes (1) returns (1) \x7b\n    // takes:               // [value]\n    dup1                    // [value, value]\n    TYPENAME_MASK()         // [mask, value, value]\n    and                     // [masked_value, value]\n    dup2                    // [value, masked_value, value]\n    eq                      // [is_safe, value]\n    is_safe                 // [is_safe_dest, is_safe, value]\n    jumpi                   // [value]\n        __ERROR(Overflow)   // [err]\n        0x00                // [ptr, err]\n        mstore              // []\n        0x04                // [err_len]\n        0x00                // [ptr, err_len]\n        revert              // []\n    is_safe:                // [value]\n\x7d"

/-- Constant `MINI_MASK_TEMPLATE` of the source file. -/
def MINI_MASK_TEMPLATE : String :=
  "\n\n/// ## Mini TYPENAME Mask\n/// \n/// Used to downcast a value to a smaller type.\n/// \n/// This consumes more runtime gas to the benefit of a smaller runtime size.\n/// \n/// ### Usage\n/// \n/// ```huff\n/// #define macro MAIN() = takes (0) returns (0) \x7b\n///     0x00 calldataload\n///     MINI_TYPENAME_MASK() and\n/// \x7d\n/// ```\n#define macro MINI_TYPENAME_MASK() = takes (0) returns (1) \x7b __MINI_MASK(TYPESIZE) \x7d\n\n/// ## Mini TYPENAME Cast\n/// \n/// Downcasts a value to a smaller type.\n/// \n/// This consumes more runtime gas to the benefit of a smaller runtime size.\n/// \n/// The `UNSAFE_MINI_TO_TYPENAME` macro will not revert on overflow.\n#define macro UNSAFE_MINI_TO_TYPENAME() = takes (0) returns (0) \x7b\n    // takes:               // [value]\n    MINI_TYPENAME_MASK()         // [mask, value]\n    and                     // [masked_value]\n\x7d"

/-- Constant `MINI_MASK_DEFINITION` of the source file. -/
def MINI_MASK_DEFINITION : String :=
  "\n/// ## Mini Mask\n///\n/// Used as a utility to generate the mask\n///\n/// The macro body is functionally equivalent to the following: `2 ** bitsize - 1`\n///\n/// ### Template Arguments\n///\n/// - `bitsize` - The number of bits to generate a mask for.\n///\n/// ### Usage\n///\n/// ```huff\n/// #define macro MINI_U32_MASK() = takes (0) returns (1) \x7b __MINI_MASK(32)\x7d\n/// ```\n#define macro __MINI_MASK(bitsize) = takes (0) returns (1) \x7b\n    0x01        // [one]\n    dup1        // [one, one]\n    <bitsize>   // [bisize, one, one]\n    shl         // [mask_plus_one, one]\n    sub         // [mask]\n\x7d\n"

/-! ### Segment decomposition of the two per-width templates

Both templates consist of nine literal segments with eight placeholder
slots between them: seven `TYPENAME` slots plus (in `MASK_TEMPLATE`) one
`TYPEMASK` slot, respectively (in `MINI_MASK_TEMPLATE`) one `TYPESIZE`
slot, in the fixed pattern `s0 P s1 P s2 P s3 Q s4 P s5 P s6 P s7 P s8`. -/

/-- Literal segment 0 of `MASK_TEMPLATE`. -/
def mtSeg0 : String :=
  "\n/// ## "

/-- Literal segment 1 of `MASK_TEMPLATE`. -/
def mtSeg1 : String :=
  " Mask\n/// \n/// Used to downcast a value to a smaller type.\n/// \n/// ### Usage\n/// \n/// ```huff\n/// #define macro MAIN() = takes (0) returns (0) \x7b\n///     0x00 calldataload\n///     "

/-- Literal segment 2 of `MASK_TEMPLATE`. -/
def mtSeg2 : String :=
  "_MASK() and\n/// \x7d\n/// ```\n#define macro "

/-- Literal segment 3 of `MASK_TEMPLATE`. -/
def mtSeg3 : String :=
  "_MASK() = takes (0) returns (1) \x7b "

/-- Literal segment 4 of `MASK_TEMPLATE`. -/
def mtSeg4 : String :=
  " \x7d\n\n/// ## "

/-- Literal segment 5 of `MASK_TEMPLATE`. -/
def mtSeg5 : String :=
  " Cast\n/// \n/// Downcasts a value to a smaller type.\n/// \n/// The `UNSAFE_TO_"

/-- Literal segment 6 of `MASK_TEMPLATE`. -/
def mtSeg6 : String :=
  "` macro will not revert on overflow.\n#define macro TO_"

/-- Literal segment 7 of `MASK_TEMPLATE`. -/
def mtSeg7 : String :=
  "() = takes (1) returns (1) \x7b\n    // takes:               // [value]\n    dup1                    // [value, value]\n    "

/-- Literal segment 8 of `MASK_TEMPLATE`. -/
def mtSeg8 : String :=
  "_MASK()         // [mask, value, value]\n    and                     // [masked_value, value]\n    dup2                    // [value, masked_value, value]\n    eq                      // [is_safe, value]\n    is_safe                 // [is_safe_dest, is_safe, value]\n    jumpi                   // [value]\n        __ERROR(Overflow)   // [err]\n        0x00                // [ptr, err]\n        mstore              // []\n        0x04                // [err_len]\n        0x00                // [ptr, err_len]\n        revert              // []\n    is_safe:                // [value]\n\x7d"

/-- Literal segment 0 of `MINI_MASK_TEMPLATE`. -/
def mmSeg0 : String :=
  "\n\n/// ## Mini "

/-- Literal segment 1 of `MINI_MASK_TEMPLATE`. -/
def mmSeg1 : String :=
  " Mask\n/// \n/// Used to downcast a value to a smaller type.\n/// \n/// This consumes more runtime gas to the benefit of a smaller runtime size.\n/// \n/// ### Usage\n/// \n/// ```huff\n/// #define macro MAIN() = takes (0) returns (0) \x7b\n///     0x00 calldataload\n///     MINI_"

/-- Literal segment 2 of `MINI_MASK_TEMPLATE`. -/
def mmSeg2 : String :=
  "_MASK() and\n/// \x7d\n/// ```\n#define macro MINI_"

/-- Literal segment 3 of `MINI_MASK_TEMPLATE`. -/
def mmSeg3 : String :=
  "_MASK() = takes (0) returns (1) \x7b __MINI_MASK("

/-- Literal segment 4 of `MINI_MASK_TEMPLATE`. -/
def mmSeg4 : String :=
  ") \x7d\n\n/// ## Mini "

/-- Literal segment 5 of `MINI_MASK_TEMPLATE`. -/
def mmSeg5 : String :=
  " Cast\n/// \n/// Downcasts a value to a smaller type.\n/// \n/// This consumes more runtime gas to the benefit of a smaller runtime size.\n/// \n/// The `UNSAFE_MINI_TO_"

/-- Literal segment 6 of `MINI_MASK_TEMPLATE`. -/
def mmSeg6 : String :=
  "` macro will not revert on overflow.\n#define macro UNSAFE_MINI_TO_"

/-- Literal segment 7 of `MINI_MASK_TEMPLATE`. -/
def mmSeg7 : String :=
  "() = takes (0) returns (0) \x7b\n    // takes:               // [value]\n    MINI_"

/-- Literal segment 8 of `MINI_MASK_TEMPLATE`. -/
def mmSeg8 : String :=
  "_MASK()         // [mask, value]\n    and                     // [masked_value]\n\x7d"

/-- Common shape of the two templates: nine segments around seven `a`-slots
and one `b`-slot. -/
def form9 (s0 s1 s2 s3 s4 s5 s6 s7 s8 a b : List Char) : List Char :=
  s0 ++ (a ++ (s1 ++ (a ++ (s2 ++ (a ++ (s3 ++ (b ++ (s4 ++ (a ++ (s5 ++ (a ++ (s6 ++ (a ++ (s7 ++ (a ++ s8)))))))))))))))

/-- The `MASK_TEMPLATE` in `form9` shape with given slot contents. -/
def mtForm (a b : List Char) : List Char :=
  form9 mtSeg0.data mtSeg1.data mtSeg2.data mtSeg3.data mtSeg4.data mtSeg5.data mtSeg6.data
    mtSeg7.data mtSeg8.data a b

/-- The `MINI_MASK_TEMPLATE` in `form9` shape with given slot contents. -/
def mmForm (a b : List Char) : List Char :=
  form9 mmSeg0.data mmSeg1.data mmSeg2.data mmSeg3.data mmSeg4.data mmSeg5.data mmSeg6.data
    mmSeg7.data mmSeg8.data a b

/-! ### The generator of `src/codegen/main.rs` -/

/-- Type name `format!("U{}", size)`. -/
def nameStr (size : Nat) : String := "U" ++ toString size

/-- The mask-building loop of `generate_cast`: push `"ff"` onto the
accumulator another `n` times. -/
def ffLoop : Nat → String → String :=
  fun n => Nat.rec (motive := fun _ => String → String) (fun acc => acc)
    (fun _ ih => fun acc => ih (acc ++ "ff")) n

/-- The mask string built by `generate_cast`: `"0x"`, then `size / 8` times `"ff"`. -/
def maskStr (size : Nat) : String := ffLoop (size / 8) "0x"

/-- Repetitions of `"ff"`, used to restate `ffLoop` without its accumulator. -/
def ffRep : Nat → String :=
  fun n => Nat.rec (motive := fun _ => String) "" (fun _ ih => "ff" ++ ih) n

/-- The function `generate_cast` of the source: derive name and mask, fill the
`MASK_TEMPLATE`, and for widths of at least 32 bits append the filled
`MINI_MASK_TEMPLATE`. -/
def generate_cast (size : Nat) : String :=
  let name := nameStr size
  let mask := maskStr size
  let mask_template :=
    strReplace (strReplace (strReplace MASK_TEMPLATE "TYPENAME" name) "TYPEMASK" mask)
      "TYPESIZE" (toString size)
  if size < 32 then mask_template
  else
    let mini_mask_template :=
      strReplace (strReplace (strReplace MINI_MASK_TEMPLATE "TYPENAME" name) "TYPEMASK" mask)
        "TYPESIZE" (toString size)
    mask_template ++ mini_mask_template

/-- The static width array of `generate_libcast`. -/
def int_sizes : List Nat :=
  [8, 16, 24, 32, 40, 48, 56, 64, 72, 80, 88, 96, 104, 112, 120, 128, 136, 144, 152, 160, 168,
    176, 184, 192, 200, 208, 216, 224, 232, 240, 248, 256]

/-- Join with separator, the model of `Vec::<String>::join`. -/
def joinSep (sep : String) : List String → String
  | [] => ""
  | [x] => x
  | x :: xs => x ++ sep ++ joinSep sep xs

/-- The document built by `generate_libcast` (the bytes written to the output
file): header, error definition, the joined per-width blocks, and the shared
mini-mask helper definition. -/
def generate_libcast : String :=
  HEADER ++ ERROR_DEFINITION ++ joinSep "\n" (int_sizes.map generate_cast) ++
    MINI_MASK_DEFINITION

/-! ### Claim-side notions -/

/-- A file system as a map from paths to file contents. -/
def FileSys : Type := String → Option String

/-- The fixed output path `src/libcast.huff` of the generator. -/
def outputPath : String := "src/libcast.huff"

/-- One run of the generator `main`: create/truncate the output file and write
the document; nothing else changes. -/
def runGenerator (fs : FileSys) : FileSys :=
  fun p => if p = outputPath then some generate_libcast else fs p

/-- Apply a list of `(pattern, replacement)` substitutions left to right. -/
def applySubs : String → List (String × String) → String
  | tpl, [] => tpl
  | tpl, pr :: rest => applySubs (strReplace tpl pr.1 pr.2) rest

/-- The six possible orders of the three placeholder substitutions. -/
def substOrders (n m s : String) : List (List (String × String)) :=
  [[("TYPENAME", n), ("TYPEMASK", m), ("TYPESIZE", s)],
    [("TYPENAME", n), ("TYPESIZE", s), ("TYPEMASK", m)],
    [("TYPEMASK", m), ("TYPENAME", n), ("TYPESIZE", s)],
    [("TYPEMASK", m), ("TYPESIZE", s), ("TYPENAME", n)],
    [("TYPESIZE", s), ("TYPENAME", n), ("TYPEMASK", m)],
    [("TYPESIZE", s), ("TYPEMASK", m), ("TYPENAME", n)]]

/-- First character of the decimal rendering of a width. -/
def sizeHead (w : Nat) : Char := (toString w).data.head?.getD '0'

/-- The characters scanned until the first `(`, used to read a macro name. -/
def takeUntil (stop : Char) (s : List Char) : List Char :=
  List.rec (motive := fun _ => List Char) []
    (fun c _ ih => if beqC c stop then [] else c :: ih) s

/-- Read the macro name from a line: lines of the shape
`#define macro NAME(...` yield `NAME`, all others nothing. -/
def macroNameOfLine (l : List Char) : Option (List Char) :=
  if isPre "#define macro ".data l then some (takeUntil '(' (dropL 14 l)) else none

/-- All macro names defined (via `#define macro` at the start of a line)
in a character list. -/
def defMacroNamesL (x : List Char) : List (List Char) :=
  (linesOf x).filterMap macroNameOfLine

/-- All macro names defined in a string. -/
def defMacroNames (s : String) : List (List Char) := defMacroNamesL s.data

/-- Expected mask-accessor macro name for a width. -/
def maskAccName (w : Nat) : List Char := ("U" ++ toString w ++ "_MASK").data

/-- Expected checked-cast macro name for a width. -/
def castName (w : Nat) : List Char := ("TO_U" ++ toString w).data

/-- Expected mini mask-accessor macro name for a width. -/
def miniMaskAccName (w : Nat) : List Char := ("MINI_U" ++ toString w ++ "_MASK").data

/-- Expected mini-cast macro name for a width. -/
def miniCastName (w : Nat) : List Char := ("UNSAFE_MINI_TO_U" ++ toString w).data

/-- The macro names a width's block is expected to define, in block order. -/
def blockNames (w : Nat) : List (List Char) :=
  if w < 32 then [maskAccName w, castName w]
  else [maskAccName w, castName w, miniMaskAccName w, miniCastName w]

/-- The document produced for an arbitrary width list (the body of
`generate_libcast`, abstracted over the static array). -/
def generate_libcast_of (sizes : List Nat) : String :=
  HEADER ++ ERROR_DEFINITION ++ joinSep "\n" (sizes.map generate_cast) ++
    MINI_MASK_DEFINITION

/-- The failure branch of the checked cast: jump away when safe, otherwise
store the `Overflow` selector at offset 0 and revert with 4 bytes. -/
def failBranch : String :=
  "jumpi                   // [value]\n        __ERROR(Overflow)   // [err]\n        0x00                // [ptr, err]\n        mstore              // []\n        0x04                // [err_len]\n        0x00                // [ptr, err_len]\n        revert              // []"

/-- The full text of the emitted unchecked mini-cast macro definition for a
width (the tail of the width's block). -/
def miniCastDef (w : Nat) : String :=
  "#define macro UNSAFE_MINI_TO_" ++ nameStr w ++ mmSeg7 ++ nameStr w ++ mmSeg8

/-! ### Equation and soundness lemmas for the primitives -/

theorem lenGo_nil (a : Nat) : lenGo [] a = a := rfl

theorem lenGo_cons (c : Char) (s : List Char) (a : Nat) : lenGo (c :: s) a = lenGo s (a + 1) :=
  rfl

theorem lenGo_eq (s : List Char) : ∀ a : Nat, lenGo s a = s.length + a := by
  induction s with
  | nil => intro a; rw [lenGo_nil]; simp
  | cons c cs ih => intro a; rw [lenGo_cons, ih, List.length_cons]; omega

theorem lenL_eq (s : List Char) : lenL s = s.length := by
  rw [lenL, lenGo_eq]; omega

theorem dropL_zero (s : List Char) : dropL 0 s = s := rfl

theorem dropL_succ_nil (n : Nat) : dropL (n + 1) [] = [] := rfl

theorem dropL_succ_cons (n : Nat) (c : Char) (cs : List Char) :
    dropL (n + 1) (c :: cs) = dropL n cs := rfl

theorem dropL_eq (n : Nat) : ∀ s : List Char, dropL n s = List.drop n s := by
  induction n with
  | zero => intro s; rfl
  | succ n ih =>
    intro s
    cases s with
    | nil => rfl
    | cons c cs => rw [dropL_succ_cons, ih, List.drop_succ_cons]

theorem beqC_iff (a b : Char) : beqC a b = true ↔ a = b := by
  constructor
  · intro h
    have h' : a.val.toBitVec.toNat = b.val.toBitVec.toNat := Nat.eq_of_beq_eq_true h
    exact Char.ext (UInt32.eq_of_toBitVec_eq (BitVec.eq_of_toNat_eq h'))
  · intro h; subst h; exact Nat.beq_refl _

theorem beqC_refl (a : Char) : beqC a a = true := (beqC_iff a a).mpr rfl

theorem beqC_false_of_ne {a b : Char} (h : a ≠ b) : beqC a b = false := by
  cases hb : beqC a b
  · rfl
  · exact absurd ((beqC_iff a b).mp hb) h

theorem beqL_iff (a : List Char) : ∀ b : List Char, beqL a b = true ↔ a = b := by
  induction a with
  | nil => intro b; cases b <;> simp [beqL]
  | cons c cs ih =>
    intro b
    cases b with
    | nil => simp [beqL]
    | cons d ds =>
      show (beqC c d && beqL cs ds) = true ↔ _
      rw [Bool.and_eq_true, beqC_iff, ih]
      constructor
      · rintro ⟨rfl, rfl⟩; rfl
      · intro h; cases h; exact ⟨rfl, rfl⟩

theorem beqS_iff (s t : String) : beqS s t = true ↔ s = t := by
  rw [beqS, beqL_iff]
  constructor
  · intro h; cases s; cases t; simp only at h; rw [h]
  · intro h; rw [h]

theorem eq_of_beqS (s t : String) (h : beqS s t = true) : s = t := (beqS_iff s t).mp h

theorem isPre_nil (s : List Char) : isPre [] s = true := rfl

theorem isPre_cons_nil (c : Char) (p : List Char) : isPre (c :: p) [] = false := rfl

theorem isPre_cons_cons (c : Char) (p : List Char) (d : Char) (s : List Char) :
    isPre (c :: p) (d :: s) = (beqC c d && isPre p s) := rfl

theorem isPre_of_ne_nil {p : List Char} (hp : p ≠ []) : isPre p [] = false := by
  cases p with
  | nil => exact absurd rfl hp
  | cons c cs => rfl

theorem isPre_self_append (p t : List Char) : isPre p (p ++ t) = true := by
  induction p with
  | nil => rfl
  | cons c cs ih => simp [isPre_cons_cons, beqC_refl, ih]

theorem isPre_stop (p : List Char) :
    ∀ (s t : List Char), (∀ c, t.head? = some c → c ∉ p) → isPre p (s ++ t) = isPre p s := by
  induction p with
  | nil => intro s t _; rfl
  | cons a p' ih =>
    intro s t ht
    cases s with
    | nil =>
      cases t with
      | nil => rfl
      | cons c t' =>
        have hc : c ∉ a :: p' := ht c rfl
        have hca : a ≠ c := fun h => hc (h ▸ List.mem_cons_self a p')
        simp [isPre_cons_cons, beqC_false_of_ne hca, isPre_cons_nil]
    | cons d s' =>
      have ht' : ∀ c, t.head? = some c → c ∉ p' := fun c hc =>
        fun hmem => ht c hc (List.mem_cons_of_mem a hmem)
      simp [List.cons_append, isPre_cons_cons, ih s' t ht']

theorem take_agree_of_succ {n : Nat} {t₁ t₂ : List Char}
    (h : t₁.take (n + 1) = t₂.take (n + 1)) : t₁.take n = t₂.take n := by
  have := congrArg (List.take n) h
  simpa [List.take_take, Nat.min_eq_left (Nat.le_succ n)] using this

theorem isPre_take (p : List Char) :
    ∀ (s t₁ t₂ : List Char), t₁.take p.length = t₂.take p.length →
      isPre p (s ++ t₁) = isPre p (s ++ t₂) := by
  induction p with
  | nil => intro s t₁ t₂ _; rfl
  | cons a p' ih =>
    intro s t₁ t₂ h
    cases s with
    | nil =>
      cases t₁ with
      | nil =>
        cases t₂ with
        | nil => rfl
        | cons c t₂' => simp [List.take] at h
      | cons c t₁' =>
        cases t₂ with
        | nil => simp [List.take] at h
        | cons d t₂' =>
          simp only [List.length_cons, List.take_succ_cons, List.cons.injEq] at h
          obtain ⟨rfl, htail⟩ := h
          have := ih [] t₁' t₂' htail
          simp only [List.nil_append] at this
          simp [isPre_cons_cons, this]
    | cons d s' =>
      have h' : t₁.take p'.length = t₂.take p'.length := by
        apply take_agree_of_succ
        simpa [List.length_cons] using h
      simp [List.cons_append, isPre_cons_cons, ih s' t₁ t₂ h']

theorem nms_nil (p t : List Char) : noMatchScan p [] t = true := rfl

theorem nms_cons (p : List Char) (c : Char) (cs t : List Char) :
    noMatchScan p (c :: cs) t = (!(isPre p (c :: (cs ++ t))) && noMatchScan p cs t) := rfl

theorem nms_take (p : List Char) (x t₁ t₂ : List Char)
    (h : t₁.take p.length = t₂.take p.length) :
    noMatchScan p x t₁ = noMatchScan p x t₂ := by
  induction x with
  | nil => rfl
  | cons c cs ih =>
    rw [nms_cons, nms_cons, ih]
    have : isPre p (c :: (cs ++ t₁)) = isPre p (c :: (cs ++ t₂)) := by
      have := isPre_take p (c :: cs) t₁ t₂ h
      simpa [List.cons_append] using this
    rw [this]

theorem nms_drop_tail (p x t : List Char) (h : ∀ c, t.head? = some c → c ∉ p) :
    noMatchScan p x t = noMatchScan p x [] := by
  induction x with
  | nil => rfl
  | cons c cs ih =>
    rw [nms_cons, nms_cons, ih]
    have h1 : isPre p ((c :: cs) ++ t) = isPre p (c :: cs) := isPre_stop p (c :: cs) t h
    have h2 : isPre p ((c :: cs) ++ ([] : List Char)) = isPre p (c :: cs) :=
      isPre_stop p (c :: cs) [] (by intro c hc; simp at hc)
    simp only [List.cons_append] at h1 h2
    rw [h1, h2]

theorem nms_all_of_head_notMem (p : List Char) (a : Char) (hp : p.head? = some a) :
    ∀ (v t : List Char), a ∉ v → noMatchScan p v t = true := by
  cases p with
  | nil => simp at hp
  | cons b p' =>
    have hb : b = a := by simpa using hp
    intro v
    induction v with
    | nil => intro t _; rfl
    | cons c cs ih =>
      intro t hmem
      have hbc : b ≠ c := by
        rw [hb]; exact fun h => hmem (h ▸ List.mem_cons_self c cs)
      rw [nms_cons]
      have hfalse : isPre (b :: p') (c :: (cs ++ t)) = false := by
        simp [isPre_cons_cons, beqC_false_of_ne hbc]
      rw [hfalse]
      simp only [Bool.not_false, Bool.true_and]
      exact ih t (fun h => hmem (List.mem_cons_of_mem c h))

theorem replaceGo_zero (p r : List Char) (plen : Nat) (s : List Char) :
    replaceGo p r plen 0 s = s := rfl

theorem replaceGo_succ (p r : List Char) (plen n : Nat) (s : List Char) :
    replaceGo p r plen (n + 1) s = replaceStep p r plen (replaceGo p r plen n) s := rfl

theorem replaceStep_pos (p r : List Char) (plen : Nat) (ih : List Char → List Char)
    (s : List Char) (h : isPre p s = true) :
    replaceStep p r plen ih s = r ++ ih (dropL plen s) := by
  simp [replaceStep, h]

theorem replaceStep_neg_nil (p r : List Char) (plen : Nat) (ih : List Char → List Char)
    (h : isPre p [] = false) : replaceStep p r plen ih [] = [] := by
  simp [replaceStep, h]

theorem replaceStep_neg_cons (p r : List Char) (plen : Nat) (ih : List Char → List Char)
    (c : Char) (cs : List Char) (h : isPre p (c :: cs) = false) :
    replaceStep p r plen ih (c :: cs) = c :: ih cs := by
  simp [replaceStep, h]

theorem replaceL_nil (p r : List Char) : replaceL p r [] = [] := rfl

theorem replaceL_def (p r s : List Char) :
    replaceL p r s = replaceGo p r (lenL p) (lenL s) s := rfl

theorem lenL_cons (c : Char) (s : List Char) : lenL (c :: s) = lenL s + 1 := by
  rw [lenL_eq, lenL_eq, List.length_cons]

theorem replaceGo_fuel_irrel (p r : List Char) (hp : p ≠ []) :
    ∀ (n m : Nat) (s : List Char), s.length ≤ n → s.length ≤ m →
      replaceGo p r (lenL p) n s = replaceGo p r (lenL p) m s := by
  intro n
  induction n with
  | zero =>
    intro m s hn _
    have : s = [] := List.eq_nil_of_length_eq_zero (Nat.le_zero.mp hn)
    subst this
    cases m with
    | zero => rfl
    | succ m =>
      rw [replaceGo_zero, replaceGo_succ, replaceStep_neg_nil p r _ _ (isPre_of_ne_nil hp)]
  | succ n ih =>
    intro m s hn hm
    cases s with
    | nil =>
      rw [replaceGo_succ, replaceStep_neg_nil p r _ _ (isPre_of_ne_nil hp)]
      cases m with
      | zero => rfl
      | succ m =>
        rw [replaceGo_succ, replaceStep_neg_nil p r _ _ (isPre_of_ne_nil hp)]
    | cons c cs =>
      cases m with
      | zero => simp [List.length_cons] at hm
      | succ m =>
        rw [replaceGo_succ, replaceGo_succ]
        have hplen : 0 < p.length := List.length_pos.mpr hp
        have hcs_n : cs.length ≤ n := by simp [List.length_cons] at hn; omega
        have hcs_m : cs.length ≤ m := by simp [List.length_cons] at hm; omega
        cases hmatch : isPre p (c :: cs) with
        | true =>
          rw [replaceStep_pos p r _ _ _ hmatch, replaceStep_pos p r _ _ _ hmatch]
          have hd : (dropL (lenL p) (c :: cs)).length ≤ cs.length := by
            rw [dropL_eq, List.length_drop, lenL_eq, List.length_cons]
            omega
          rw [ih m _ (le_trans hd hcs_n) (le_trans hd hcs_m)]
        | false =>
          rw [replaceStep_neg_cons p r _ _ _ _ hmatch, replaceStep_neg_cons p r _ _ _ _ hmatch,
            ih m cs hcs_n hcs_m]

theorem replaceGo_eq_replaceL (p r : List Char) (hp : p ≠ []) (n : Nat) (s : List Char)
    (h : s.length ≤ n) : replaceGo p r (lenL p) n s = replaceL p r s := by
  rw [replaceL_def]
  exact replaceGo_fuel_irrel p r hp n (lenL s) s h (by rw [lenL_eq])

theorem replaceL_cons (p r : List Char) (c : Char) (cs : List Char) :
    replaceL p r (c :: cs) =
      replaceStep p r (lenL p) (replaceGo p r (lenL p) (lenL cs)) (c :: cs) := by
  rw [replaceL_def, lenL_cons, replaceGo_succ]

theorem replaceL_skip (p r : List Char) (hp : p ≠ []) :
    ∀ (x t : List Char), noMatchScan p x t = true →
      replaceL p r (x ++ t) = x ++ replaceL p r t := by
  intro x
  induction x with
  | nil => intro t _; simp
  | cons c cs ih =>
    intro t hscan
    rw [nms_cons, Bool.and_eq_true] at hscan
    obtain ⟨hnot, hrest⟩ := hscan
    have hmatch : isPre p (c :: (cs ++ t)) = false := by
      cases h : isPre p (c :: (cs ++ t))
      · rfl
      · rw [h] at hnot; simp at hnot
    rw [List.cons_append, replaceL_cons, replaceStep_neg_cons p r _ _ _ _ hmatch]
    have : replaceGo p r (lenL p) (lenL (cs ++ t)) (cs ++ t) = replaceL p r (cs ++ t) :=
      (replaceL_def p r (cs ++ t)).symm
    rw [this, ih t hrest, List.cons_append]

theorem replaceL_match (p r : List Char) (hp : p ≠ []) (y : List Char) :
    replaceL p r (p ++ y) = r ++ replaceL p r y := by
  cases p with
  | nil => exact absurd rfl hp
  | cons a p' =>
    rw [List.cons_append, replaceL_cons]
    have hmatch : isPre (a :: p') (a :: (p' ++ y)) = true := by
      have := isPre_self_append (a :: p') y
      simpa [List.cons_append] using this
    rw [replaceStep_pos _ _ _ _ _ hmatch]
    have hdrop : dropL (lenL (a :: p')) (a :: (p' ++ y)) = y := by
      rw [dropL_eq, lenL_eq]
      have : a :: (p' ++ y) = (a :: p') ++ y := by simp [List.cons_append]
      rw [this, List.drop_left]
    rw [hdrop]
    have hylen : y.length ≤ lenL (p' ++ y) := by
      rw [lenL_eq, List.length_append]
      omega
    rw [replaceGo_eq_replaceL (a :: p') r hp _ y hylen]

theorem replaceL_of_noMatch (p r : List Char) (hp : p ≠ []) (x : List Char)
    (h : noMatchScan p x [] = true) : replaceL p r x = x := by
  have h2 := replaceL_skip p r hp x [] h
  rw [List.append_nil] at h2
  rw [h2, replaceL_nil, List.append_nil]

theorem mtForm_eq : MASK_TEMPLATE.data = mtForm "TYPENAME".data "TYPEMASK".data := by
  have h : beqL MASK_TEMPLATE.data (mtForm "TYPENAME".data "TYPEMASK".data) = true := by decide!
  exact (beqL_iff _ _).mp h

theorem mmForm_eq : MINI_MASK_TEMPLATE.data = mmForm "TYPENAME".data "TYPESIZE".data := by
  have h : beqL MINI_MASK_TEMPLATE.data (mmForm "TYPENAME".data "TYPESIZE".data) = true := by
    decide!
  exact (beqL_iff _ _).mp h
theorem take_head_append (x y : List Char) (n : Nat) (hx : x.length = n) :
    (x ++ y).take n = x := by
  rw [List.take_append_of_le_length (le_of_eq hx.symm), ← hx, List.take_length]

theorem nms_of_window (p x t w : List Char) (hw : t.take p.length = w)
    (h : noMatchScan p x w = true) : noMatchScan p x t = true := by
  have hagree : t.take p.length = w.take p.length := by
    rw [hw, ← hw, List.take_take, Nat.min_self, hw]
  rw [nms_take p x t w hagree]
  exact h

theorem nms_of_tail_head (p x t : List Char) (c : Char) (hh : t.head? = some c) (hc : c ∉ p)
    (h : noMatchScan p x [] = true) : noMatchScan p x t = true := by
  rw [nms_drop_tail p x t ?hyp]
  · exact h
  case hyp =>
    intro d hd
    rw [hh] at hd
    injection hd with e
    exact e ▸ hc

theorem form9_subst_a (s0 s1 s2 s3 s4 s5 s6 s7 s8 p r b : List Char) (hp : p ≠ [])
    (h0 : noMatchScan p s0 p = true)
    (h1 : noMatchScan p s1 p = true)
    (h2 : noMatchScan p s2 p = true)
    (h3 : noMatchScan p s3 (b ++ (s4 ++ (p ++ (s5 ++ (p ++ (s6 ++ (p ++ (s7 ++ (p ++ s8))))))))) = true)
    (hb : noMatchScan p b (s4 ++ (p ++ (s5 ++ (p ++ (s6 ++ (p ++ (s7 ++ (p ++ s8)))))))) = true)
    (h4 : noMatchScan p s4 p = true)
    (h5 : noMatchScan p s5 p = true)
    (h6 : noMatchScan p s6 p = true)
    (h7 : noMatchScan p s7 p = true)
    (h8 : noMatchScan p s8 [] = true) :
    replaceL p r (form9 s0 s1 s2 s3 s4 s5 s6 s7 s8 p b) =
      form9 s0 s1 s2 s3 s4 s5 s6 s7 s8 r b := by
  unfold form9
  rw [replaceL_skip p r hp s0 _ (nms_of_window p s0 _ p (take_head_append p _ _ rfl) h0),
    replaceL_match p r hp _,
    replaceL_skip p r hp s1 _ (nms_of_window p s1 _ p (take_head_append p _ _ rfl) h1),
    replaceL_match p r hp _,
    replaceL_skip p r hp s2 _ (nms_of_window p s2 _ p (take_head_append p _ _ rfl) h2),
    replaceL_match p r hp _,
    replaceL_skip p r hp s3 _ h3,
    replaceL_skip p r hp b _ hb,
    replaceL_skip p r hp s4 _ (nms_of_window p s4 _ p (take_head_append p _ _ rfl) h4),
    replaceL_match p r hp _,
    replaceL_skip p r hp s5 _ (nms_of_window p s5 _ p (take_head_append p _ _ rfl) h5),
    replaceL_match p r hp _,
    replaceL_skip p r hp s6 _ (nms_of_window p s6 _ p (take_head_append p _ _ rfl) h6),
    replaceL_match p r hp _,
    replaceL_skip p r hp s7 _ (nms_of_window p s7 _ p (take_head_append p _ _ rfl) h7),
    replaceL_match p r hp _,
    replaceL_of_noMatch p r hp s8 h8]

theorem form9_subst_b (s0 s1 s2 s3 s4 s5 s6 s7 s8 q r a : List Char) (hq : q ≠ [])
    (h0 : noMatchScan q s0 (a ++ (s1 ++ (a ++ (s2 ++ (a ++ (s3 ++ (q ++ (s4 ++ (a ++ (s5 ++ (a ++ (s6 ++ (a ++ (s7 ++ (a ++ s8))))))))))))))) = true)
    (ha0 : noMatchScan q a (s1 ++ (a ++ (s2 ++ (a ++ (s3 ++ (q ++ (s4 ++ (a ++ (s5 ++ (a ++ (s6 ++ (a ++ (s7 ++ (a ++ s8)))))))))))))) = true)
    (h1 : noMatchScan q s1 (a ++ (s2 ++ (a ++ (s3 ++ (q ++ (s4 ++ (a ++ (s5 ++ (a ++ (s6 ++ (a ++ (s7 ++ (a ++ s8))))))))))))) = true)
    (ha1 : noMatchScan q a (s2 ++ (a ++ (s3 ++ (q ++ (s4 ++ (a ++ (s5 ++ (a ++ (s6 ++ (a ++ (s7 ++ (a ++ s8)))))))))))) = true)
    (h2 : noMatchScan q s2 (a ++ (s3 ++ (q ++ (s4 ++ (a ++ (s5 ++ (a ++ (s6 ++ (a ++ (s7 ++ (a ++ s8))))))))))) = true)
    (ha2 : noMatchScan q a (s3 ++ (q ++ (s4 ++ (a ++ (s5 ++ (a ++ (s6 ++ (a ++ (s7 ++ (a ++ s8)))))))))) = true)
    (h3 : noMatchScan q s3 q = true)
    (h4 : noMatchScan q s4 (a ++ (s5 ++ (a ++ (s6 ++ (a ++ (s7 ++ (a ++ s8))))))) = true)
    (ha3 : noMatchScan q a (s5 ++ (a ++ (s6 ++ (a ++ (s7 ++ (a ++ s8)))))) = true)
    (h5 : noMatchScan q s5 (a ++ (s6 ++ (a ++ (s7 ++ (a ++ s8))))) = true)
    (ha4 : noMatchScan q a (s6 ++ (a ++ (s7 ++ (a ++ s8)))) = true)
    (h6 : noMatchScan q s6 (a ++ (s7 ++ (a ++ s8))) = true)
    (ha5 : noMatchScan q a (s7 ++ (a ++ s8)) = true)
    (h7 : noMatchScan q s7 (a ++ s8) = true)
    (ha6 : noMatchScan q a s8 = true)
    (h8 : noMatchScan q s8 [] = true) :
    replaceL q r (form9 s0 s1 s2 s3 s4 s5 s6 s7 s8 a q) =
      form9 s0 s1 s2 s3 s4 s5 s6 s7 s8 a r := by
  unfold form9
  rw [replaceL_skip q r hq s0 _ h0,
    replaceL_skip q r hq a _ ha0,
    replaceL_skip q r hq s1 _ h1,
    replaceL_skip q r hq a _ ha1,
    replaceL_skip q r hq s2 _ h2,
    replaceL_skip q r hq a _ ha2,
    replaceL_skip q r hq s3 _ (nms_of_window q s3 _ q (take_head_append q _ _ rfl) h3),
    replaceL_match q r hq _,
    replaceL_skip q r hq s4 _ h4,
    replaceL_skip q r hq a _ ha3,
    replaceL_skip q r hq s5 _ h5,
    replaceL_skip q r hq a _ ha4,
    replaceL_skip q r hq s6 _ h6,
    replaceL_skip q r hq a _ ha5,
    replaceL_skip q r hq s7 _ h7,
    replaceL_skip q r hq a _ ha6,
    replaceL_of_noMatch q r hq s8 h8]

theorem form9_subst_vac (s0 s1 s2 s3 s4 s5 s6 s7 s8 p r a b : List Char) (hp : p ≠ [])
    (h0 : noMatchScan p s0 (a ++ (s1 ++ (a ++ (s2 ++ (a ++ (s3 ++ (b ++ (s4 ++ (a ++ (s5 ++ (a ++ (s6 ++ (a ++ (s7 ++ (a ++ s8))))))))))))))) = true)
    (ha0 : noMatchScan p a (s1 ++ (a ++ (s2 ++ (a ++ (s3 ++ (b ++ (s4 ++ (a ++ (s5 ++ (a ++ (s6 ++ (a ++ (s7 ++ (a ++ s8)))))))))))))) = true)
    (h1 : noMatchScan p s1 (a ++ (s2 ++ (a ++ (s3 ++ (b ++ (s4 ++ (a ++ (s5 ++ (a ++ (s6 ++ (a ++ (s7 ++ (a ++ s8))))))))))))) = true)
    (ha1 : noMatchScan p a (s2 ++ (a ++ (s3 ++ (b ++ (s4 ++ (a ++ (s5 ++ (a ++ (s6 ++ (a ++ (s7 ++ (a ++ s8)))))))))))) = true)
    (h2 : noMatchScan p s2 (a ++ (s3 ++ (b ++ (s4 ++ (a ++ (s5 ++ (a ++ (s6 ++ (a ++ (s7 ++ (a ++ s8))))))))))) = true)
    (ha2 : noMatchScan p a (s3 ++ (b ++ (s4 ++ (a ++ (s5 ++ (a ++ (s6 ++ (a ++ (s7 ++ (a ++ s8)))))))))) = true)
    (h3 : noMatchScan p s3 (b ++ (s4 ++ (a ++ (s5 ++ (a ++ (s6 ++ (a ++ (s7 ++ (a ++ s8))))))))) = true)
    (hbv : noMatchScan p b (s4 ++ (a ++ (s5 ++ (a ++ (s6 ++ (a ++ (s7 ++ (a ++ s8)))))))) = true)
    (h4 : noMatchScan p s4 (a ++ (s5 ++ (a ++ (s6 ++ (a ++ (s7 ++ (a ++ s8))))))) = true)
    (ha3 : noMatchScan p a (s5 ++ (a ++ (s6 ++ (a ++ (s7 ++ (a ++ s8)))))) = true)
    (h5 : noMatchScan p s5 (a ++ (s6 ++ (a ++ (s7 ++ (a ++ s8))))) = true)
    (ha4 : noMatchScan p a (s6 ++ (a ++ (s7 ++ (a ++ s8)))) = true)
    (h6 : noMatchScan p s6 (a ++ (s7 ++ (a ++ s8))) = true)
    (ha5 : noMatchScan p a (s7 ++ (a ++ s8)) = true)
    (h7 : noMatchScan p s7 (a ++ s8) = true)
    (ha6 : noMatchScan p a (s8) = true)
    (h8 : noMatchScan p s8 [] = true) :
    replaceL p r (form9 s0 s1 s2 s3 s4 s5 s6 s7 s8 a b) =
      form9 s0 s1 s2 s3 s4 s5 s6 s7 s8 a b := by
  unfold form9
  rw [replaceL_skip p r hp s0 _ h0,
    replaceL_skip p r hp a _ ha0,
    replaceL_skip p r hp s1 _ h1,
    replaceL_skip p r hp a _ ha1,
    replaceL_skip p r hp s2 _ h2,
    replaceL_skip p r hp a _ ha2,
    replaceL_skip p r hp s3 _ h3,
    replaceL_skip p r hp b _ hbv,
    replaceL_skip p r hp s4 _ h4,
    replaceL_skip p r hp a _ ha3,
    replaceL_skip p r hp s5 _ h5,
    replaceL_skip p r hp a _ ha4,
    replaceL_skip p r hp s6 _ h6,
    replaceL_skip p r hp a _ ha5,
    replaceL_skip p r hp s7 _ h7,
    replaceL_skip p r hp a _ ha6,
    replaceL_of_noMatch p r hp s8 h8]
theorem nmsF_mt_pn_0_pn : noMatchScan "TYPENAME".data mtSeg0.data "TYPENAME".data = true := by decide!

theorem nmsF_mt_pn_1_pn : noMatchScan "TYPENAME".data mtSeg1.data "TYPENAME".data = true := by decide!

theorem nmsF_mt_pn_2_pn : noMatchScan "TYPENAME".data mtSeg2.data "TYPENAME".data = true := by decide!

theorem nmsF_mt_pn_4_pn : noMatchScan "TYPENAME".data mtSeg4.data "TYPENAME".data = true := by decide!

theorem nmsF_mt_pn_5_pn : noMatchScan "TYPENAME".data mtSeg5.data "TYPENAME".data = true := by decide!

theorem nmsF_mt_pn_6_pn : noMatchScan "TYPENAME".data mtSeg6.data "TYPENAME".data = true := by decide!

theorem nmsF_mt_pn_7_pn : noMatchScan "TYPENAME".data mtSeg7.data "TYPENAME".data = true := by decide!

theorem nmsF_mt_pn_3_full : noMatchScan "TYPENAME".data mtSeg3.data ("TYPEMASK".data ++ (mtSeg4.data ++ ("TYPENAME".data ++ (mtSeg5.data ++ ("TYPENAME".data ++ (mtSeg6.data ++ ("TYPENAME".data ++ (mtSeg7.data ++ ("TYPENAME".data ++ mtSeg8.data))))))))) = true := by decide!

theorem nmsF_mt_pn_q_t4 : noMatchScan "TYPENAME".data "TYPEMASK".data (mtSeg4.data ++ ("TYPENAME".data ++ (mtSeg5.data ++ ("TYPENAME".data ++ (mtSeg6.data ++ ("TYPENAME".data ++ (mtSeg7.data ++ ("TYPENAME".data ++ mtSeg8.data)))))))) = true := by decide!

theorem nmsF_mt_pn_3_nil : noMatchScan "TYPENAME".data mtSeg3.data [] = true := by decide!

theorem nmsF_mt_pn_8_nil : noMatchScan "TYPENAME".data mtSeg8.data [] = true := by decide!

theorem nmsF_mt_q_0_nil : noMatchScan "TYPEMASK".data mtSeg0.data [] = true := by decide!

theorem nmsF_mt_q_1_nil : noMatchScan "TYPEMASK".data mtSeg1.data [] = true := by decide!

theorem nmsF_mt_q_2_nil : noMatchScan "TYPEMASK".data mtSeg2.data [] = true := by decide!

theorem nmsF_mt_q_4_nil : noMatchScan "TYPEMASK".data mtSeg4.data [] = true := by decide!

theorem nmsF_mt_q_5_nil : noMatchScan "TYPEMASK".data mtSeg5.data [] = true := by decide!

theorem nmsF_mt_q_6_nil : noMatchScan "TYPEMASK".data mtSeg6.data [] = true := by decide!

theorem nmsF_mt_q_7_nil : noMatchScan "TYPEMASK".data mtSeg7.data [] = true := by decide!

theorem nmsF_mt_q_8_nil : noMatchScan "TYPEMASK".data mtSeg8.data [] = true := by decide!

theorem nmsF_mt_q_3_q : noMatchScan "TYPEMASK".data mtSeg3.data "TYPEMASK".data = true := by decide!

theorem nmsF_mt_q_0_pn : noMatchScan "TYPEMASK".data mtSeg0.data "TYPENAME".data = true := by decide!

theorem nmsF_mt_q_1_pn : noMatchScan "TYPEMASK".data mtSeg1.data "TYPENAME".data = true := by decide!

theorem nmsF_mt_q_2_pn : noMatchScan "TYPEMASK".data mtSeg2.data "TYPENAME".data = true := by decide!

theorem nmsF_mt_q_4_pn : noMatchScan "TYPEMASK".data mtSeg4.data "TYPENAME".data = true := by decide!

theorem nmsF_mt_q_5_pn : noMatchScan "TYPEMASK".data mtSeg5.data "TYPENAME".data = true := by decide!

theorem nmsF_mt_q_6_pn : noMatchScan "TYPEMASK".data mtSeg6.data "TYPENAME".data = true := by decide!

theorem nmsF_mt_q_7_pn : noMatchScan "TYPEMASK".data mtSeg7.data "TYPENAME".data = true := by decide!

theorem nmsF_mt_q_pn_w1 : noMatchScan "TYPEMASK".data "TYPENAME".data " Mask\n//".data = true := by decide!

theorem nmsF_mt_q_pn_w2 : noMatchScan "TYPEMASK".data "TYPENAME".data "_MASK() ".data = true := by decide!

theorem nmsF_mt_q_pn_w3 : noMatchScan "TYPEMASK".data "TYPENAME".data "_MASK() ".data = true := by decide!

theorem nmsF_mt_q_pn_w5 : noMatchScan "TYPEMASK".data "TYPENAME".data " Cast\n//".data = true := by decide!

theorem nmsF_mt_q_pn_w6 : noMatchScan "TYPEMASK".data "TYPENAME".data "` macro ".data = true := by decide!

theorem nmsF_mt_q_pn_w7 : noMatchScan "TYPEMASK".data "TYPENAME".data "() = tak".data = true := by decide!

theorem nmsF_mt_q_pn_w8 : noMatchScan "TYPEMASK".data "TYPENAME".data "_MASK() ".data = true := by decide!

theorem nmsF_mt_v_0_nil : noMatchScan "TYPESIZE".data mtSeg0.data [] = true := by decide!

theorem nmsF_mt_v_1_nil : noMatchScan "TYPESIZE".data mtSeg1.data [] = true := by decide!

theorem nmsF_mt_v_2_nil : noMatchScan "TYPESIZE".data mtSeg2.data [] = true := by decide!

theorem nmsF_mt_v_3_nil : noMatchScan "TYPESIZE".data mtSeg3.data [] = true := by decide!

theorem nmsF_mt_v_4_nil : noMatchScan "TYPESIZE".data mtSeg4.data [] = true := by decide!

theorem nmsF_mt_v_5_nil : noMatchScan "TYPESIZE".data mtSeg5.data [] = true := by decide!

theorem nmsF_mt_v_6_nil : noMatchScan "TYPESIZE".data mtSeg6.data [] = true := by decide!

theorem nmsF_mt_v_7_nil : noMatchScan "TYPESIZE".data mtSeg7.data [] = true := by decide!

theorem nmsF_mt_v_8_nil : noMatchScan "TYPESIZE".data mtSeg8.data [] = true := by decide!

theorem nmsF_mt_v_3_q : noMatchScan "TYPESIZE".data mtSeg3.data "TYPEMASK".data = true := by decide!

theorem nmsF_mt_v_q_w4 : noMatchScan "TYPESIZE".data "TYPEMASK".data " \x7d\n\n/// ".data = true := by decide!

theorem nmsF_mt_v_0_pn : noMatchScan "TYPESIZE".data mtSeg0.data "TYPENAME".data = true := by decide!

theorem nmsF_mt_v_1_pn : noMatchScan "TYPESIZE".data mtSeg1.data "TYPENAME".data = true := by decide!

theorem nmsF_mt_v_2_pn : noMatchScan "TYPESIZE".data mtSeg2.data "TYPENAME".data = true := by decide!

theorem nmsF_mt_v_4_pn : noMatchScan "TYPESIZE".data mtSeg4.data "TYPENAME".data = true := by decide!

theorem nmsF_mt_v_5_pn : noMatchScan "TYPESIZE".data mtSeg5.data "TYPENAME".data = true := by decide!

theorem nmsF_mt_v_6_pn : noMatchScan "TYPESIZE".data mtSeg6.data "TYPENAME".data = true := by decide!

theorem nmsF_mt_v_7_pn : noMatchScan "TYPESIZE".data mtSeg7.data "TYPENAME".data = true := by decide!

theorem nmsF_mt_v_pn_w1 : noMatchScan "TYPESIZE".data "TYPENAME".data " Mask\n//".data = true := by decide!

theorem nmsF_mt_v_pn_w2 : noMatchScan "TYPESIZE".data "TYPENAME".data "_MASK() ".data = true := by decide!

theorem nmsF_mt_v_pn_w3 : noMatchScan "TYPESIZE".data "TYPENAME".data "_MASK() ".data = true := by decide!

theorem nmsF_mt_v_pn_w5 : noMatchScan "TYPESIZE".data "TYPENAME".data " Cast\n//".data = true := by decide!

theorem nmsF_mt_v_pn_w6 : noMatchScan "TYPESIZE".data "TYPENAME".data "` macro ".data = true := by decide!

theorem nmsF_mt_v_pn_w7 : noMatchScan "TYPESIZE".data "TYPENAME".data "() = tak".data = true := by decide!

theorem nmsF_mt_v_pn_w8 : noMatchScan "TYPESIZE".data "TYPENAME".data "_MASK() ".data = true := by decide!

theorem nmsF_mm_pn_0_pn : noMatchScan "TYPENAME".data mmSeg0.data "TYPENAME".data = true := by decide!

theorem nmsF_mm_pn_1_pn : noMatchScan "TYPENAME".data mmSeg1.data "TYPENAME".data = true := by decide!

theorem nmsF_mm_pn_2_pn : noMatchScan "TYPENAME".data mmSeg2.data "TYPENAME".data = true := by decide!

theorem nmsF_mm_pn_4_pn : noMatchScan "TYPENAME".data mmSeg4.data "TYPENAME".data = true := by decide!

theorem nmsF_mm_pn_5_pn : noMatchScan "TYPENAME".data mmSeg5.data "TYPENAME".data = true := by decide!

theorem nmsF_mm_pn_6_pn : noMatchScan "TYPENAME".data mmSeg6.data "TYPENAME".data = true := by decide!

theorem nmsF_mm_pn_7_pn : noMatchScan "TYPENAME".data mmSeg7.data "TYPENAME".data = true := by decide!

theorem nmsF_mm_pn_3_full : noMatchScan "TYPENAME".data mmSeg3.data ("TYPESIZE".data ++ (mmSeg4.data ++ ("TYPENAME".data ++ (mmSeg5.data ++ ("TYPENAME".data ++ (mmSeg6.data ++ ("TYPENAME".data ++ (mmSeg7.data ++ ("TYPENAME".data ++ mmSeg8.data))))))))) = true := by decide!

theorem nmsF_mm_pn_q_t4 : noMatchScan "TYPENAME".data "TYPESIZE".data (mmSeg4.data ++ ("TYPENAME".data ++ (mmSeg5.data ++ ("TYPENAME".data ++ (mmSeg6.data ++ ("TYPENAME".data ++ (mmSeg7.data ++ ("TYPENAME".data ++ mmSeg8.data)))))))) = true := by decide!

theorem nmsF_mm_pn_3_nil : noMatchScan "TYPENAME".data mmSeg3.data [] = true := by decide!

theorem nmsF_mm_pn_8_nil : noMatchScan "TYPENAME".data mmSeg8.data [] = true := by decide!

theorem nmsF_mm_q_0_nil : noMatchScan "TYPESIZE".data mmSeg0.data [] = true := by decide!

theorem nmsF_mm_q_1_nil : noMatchScan "TYPESIZE".data mmSeg1.data [] = true := by decide!

theorem nmsF_mm_q_2_nil : noMatchScan "TYPESIZE".data mmSeg2.data [] = true := by decide!

theorem nmsF_mm_q_4_nil : noMatchScan "TYPESIZE".data mmSeg4.data [] = true := by decide!

theorem nmsF_mm_q_5_nil : noMatchScan "TYPESIZE".data mmSeg5.data [] = true := by decide!

theorem nmsF_mm_q_6_nil : noMatchScan "TYPESIZE".data mmSeg6.data [] = true := by decide!

theorem nmsF_mm_q_7_nil : noMatchScan "TYPESIZE".data mmSeg7.data [] = true := by decide!

theorem nmsF_mm_q_8_nil : noMatchScan "TYPESIZE".data mmSeg8.data [] = true := by decide!

theorem nmsF_mm_q_3_q : noMatchScan "TYPESIZE".data mmSeg3.data "TYPESIZE".data = true := by decide!

theorem nmsF_mm_q_0_pn : noMatchScan "TYPESIZE".data mmSeg0.data "TYPENAME".data = true := by decide!

theorem nmsF_mm_q_1_pn : noMatchScan "TYPESIZE".data mmSeg1.data "TYPENAME".data = true := by decide!

theorem nmsF_mm_q_2_pn : noMatchScan "TYPESIZE".data mmSeg2.data "TYPENAME".data = true := by decide!

theorem nmsF_mm_q_4_pn : noMatchScan "TYPESIZE".data mmSeg4.data "TYPENAME".data = true := by decide!

theorem nmsF_mm_q_5_pn : noMatchScan "TYPESIZE".data mmSeg5.data "TYPENAME".data = true := by decide!

theorem nmsF_mm_q_6_pn : noMatchScan "TYPESIZE".data mmSeg6.data "TYPENAME".data = true := by decide!

theorem nmsF_mm_q_7_pn : noMatchScan "TYPESIZE".data mmSeg7.data "TYPENAME".data = true := by decide!

theorem nmsF_mm_q_pn_w1 : noMatchScan "TYPESIZE".data "TYPENAME".data " Mask\n//".data = true := by decide!

theorem nmsF_mm_q_pn_w2 : noMatchScan "TYPESIZE".data "TYPENAME".data "_MASK() ".data = true := by decide!

theorem nmsF_mm_q_pn_w3 : noMatchScan "TYPESIZE".data "TYPENAME".data "_MASK() ".data = true := by decide!

theorem nmsF_mm_q_pn_w5 : noMatchScan "TYPESIZE".data "TYPENAME".data " Cast\n//".data = true := by decide!

theorem nmsF_mm_q_pn_w6 : noMatchScan "TYPESIZE".data "TYPENAME".data "` macro ".data = true := by decide!

theorem nmsF_mm_q_pn_w7 : noMatchScan "TYPESIZE".data "TYPENAME".data "() = tak".data = true := by decide!

theorem nmsF_mm_q_pn_w8 : noMatchScan "TYPESIZE".data "TYPENAME".data "_MASK() ".data = true := by decide!

theorem nmsF_mm_v_0_nil : noMatchScan "TYPEMASK".data mmSeg0.data [] = true := by decide!

theorem nmsF_mm_v_1_nil : noMatchScan "TYPEMASK".data mmSeg1.data [] = true := by decide!

theorem nmsF_mm_v_2_nil : noMatchScan "TYPEMASK".data mmSeg2.data [] = true := by decide!

theorem nmsF_mm_v_3_nil : noMatchScan "TYPEMASK".data mmSeg3.data [] = true := by decide!

theorem nmsF_mm_v_4_nil : noMatchScan "TYPEMASK".data mmSeg4.data [] = true := by decide!

theorem nmsF_mm_v_5_nil : noMatchScan "TYPEMASK".data mmSeg5.data [] = true := by decide!

theorem nmsF_mm_v_6_nil : noMatchScan "TYPEMASK".data mmSeg6.data [] = true := by decide!

theorem nmsF_mm_v_7_nil : noMatchScan "TYPEMASK".data mmSeg7.data [] = true := by decide!

theorem nmsF_mm_v_8_nil : noMatchScan "TYPEMASK".data mmSeg8.data [] = true := by decide!

theorem nmsF_mm_v_3_q : noMatchScan "TYPEMASK".data mmSeg3.data "TYPESIZE".data = true := by decide!

theorem nmsF_mm_v_q_w4 : noMatchScan "TYPEMASK".data "TYPESIZE".data ") \x7d\n\n///".data = true := by decide!

theorem nmsF_mm_v_0_pn : noMatchScan "TYPEMASK".data mmSeg0.data "TYPENAME".data = true := by decide!

theorem nmsF_mm_v_1_pn : noMatchScan "TYPEMASK".data mmSeg1.data "TYPENAME".data = true := by decide!

theorem nmsF_mm_v_2_pn : noMatchScan "TYPEMASK".data mmSeg2.data "TYPENAME".data = true := by decide!

theorem nmsF_mm_v_4_pn : noMatchScan "TYPEMASK".data mmSeg4.data "TYPENAME".data = true := by decide!

theorem nmsF_mm_v_5_pn : noMatchScan "TYPEMASK".data mmSeg5.data "TYPENAME".data = true := by decide!

theorem nmsF_mm_v_6_pn : noMatchScan "TYPEMASK".data mmSeg6.data "TYPENAME".data = true := by decide!

theorem nmsF_mm_v_7_pn : noMatchScan "TYPEMASK".data mmSeg7.data "TYPENAME".data = true := by decide!

theorem nmsF_mm_v_pn_w1 : noMatchScan "TYPEMASK".data "TYPENAME".data " Mask\n//".data = true := by decide!

theorem nmsF_mm_v_pn_w2 : noMatchScan "TYPEMASK".data "TYPENAME".data "_MASK() ".data = true := by decide!

theorem nmsF_mm_v_pn_w3 : noMatchScan "TYPEMASK".data "TYPENAME".data "_MASK() ".data = true := by decide!

theorem nmsF_mm_v_pn_w5 : noMatchScan "TYPEMASK".data "TYPENAME".data " Cast\n//".data = true := by decide!

theorem nmsF_mm_v_pn_w6 : noMatchScan "TYPEMASK".data "TYPENAME".data "` macro ".data = true := by decide!

theorem nmsF_mm_v_pn_w7 : noMatchScan "TYPEMASK".data "TYPENAME".data "() = tak".data = true := by decide!

theorem nmsF_mm_v_pn_w8 : noMatchScan "TYPEMASK".data "TYPENAME".data "_MASK() ".data = true := by decide!

theorem head?_append_some {a : List Char} {c : Char} (h : a.head? = some c) (t : List Char) :
    (a ++ t).head? = some c := by
  cases a with
  | nil => simp at h
  | cons d ds => simpa using h

theorem take_window_append (x y w : List Char) (n : Nat) (hn : n ≤ x.length)
    (hw : x.take n = w) : (x ++ y).take n = w := by
  rw [List.take_append_of_le_length hn, hw]


/-- Substituting the `TYPENAME` slots of the `mt` form while the second slot
still holds its placeholder. -/
theorem mt_subst_pn_q (r : List Char) :
    replaceL "TYPENAME".data r (mtForm "TYPENAME".data "TYPEMASK".data) = mtForm r "TYPEMASK".data :=
  form9_subst_a mtSeg0.data mtSeg1.data mtSeg2.data mtSeg3.data mtSeg4.data mtSeg5.data mtSeg6.data mtSeg7.data mtSeg8.data "TYPENAME".data r "TYPEMASK".data (by decide!)
    nmsF_mt_pn_0_pn nmsF_mt_pn_1_pn nmsF_mt_pn_2_pn
    nmsF_mt_pn_3_full
    nmsF_mt_pn_q_t4
    nmsF_mt_pn_4_pn nmsF_mt_pn_5_pn nmsF_mt_pn_6_pn nmsF_mt_pn_7_pn
    nmsF_mt_pn_8_nil

/-- Substituting the `TYPENAME` slots of the `mt` form when the second slot
already holds a value `b` that starts with a character outside the pattern
and contains no letter T. -/
theorem mt_subst_pn_val (r b : List Char) (c : Char) (hh : b.head? = some c)
    (hc : c ∉ "TYPENAME".data) (hT : 'T' ∉ b) :
    replaceL "TYPENAME".data r (mtForm "TYPENAME".data b) = mtForm r b :=
  form9_subst_a mtSeg0.data mtSeg1.data mtSeg2.data mtSeg3.data mtSeg4.data mtSeg5.data mtSeg6.data mtSeg7.data mtSeg8.data "TYPENAME".data r b (by decide!)
    nmsF_mt_pn_0_pn nmsF_mt_pn_1_pn nmsF_mt_pn_2_pn
    (nms_of_tail_head "TYPENAME".data mtSeg3.data _ c (head?_append_some hh _) hc nmsF_mt_pn_3_nil)
    (nms_all_of_head_notMem "TYPENAME".data 'T' rfl b _ hT)
    nmsF_mt_pn_4_pn nmsF_mt_pn_5_pn nmsF_mt_pn_6_pn nmsF_mt_pn_7_pn
    nmsF_mt_pn_8_nil

/-- Substituting the second slot of the `mt` form when the `TYPENAME` slots
already hold a value `a`. -/
theorem mt_subst_q_val (r a : List Char) (c : Char) (hh : a.head? = some c)
    (hc : c ∉ "TYPEMASK".data) (hq : 'T' ∉ a) :
    replaceL "TYPEMASK".data r (mtForm a "TYPEMASK".data) = mtForm a r :=
  form9_subst_b mtSeg0.data mtSeg1.data mtSeg2.data mtSeg3.data mtSeg4.data mtSeg5.data mtSeg6.data mtSeg7.data mtSeg8.data "TYPEMASK".data r a (by decide!)
    (nms_of_tail_head "TYPEMASK".data mtSeg0.data _ c (head?_append_some hh _) hc nmsF_mt_q_0_nil) (nms_all_of_head_notMem "TYPEMASK".data 'T' rfl a _ hq)
    (nms_of_tail_head "TYPEMASK".data mtSeg1.data _ c (head?_append_some hh _) hc nmsF_mt_q_1_nil) (nms_all_of_head_notMem "TYPEMASK".data 'T' rfl a _ hq)
    (nms_of_tail_head "TYPEMASK".data mtSeg2.data _ c (head?_append_some hh _) hc nmsF_mt_q_2_nil) (nms_all_of_head_notMem "TYPEMASK".data 'T' rfl a _ hq)
    nmsF_mt_q_3_q
    (nms_of_tail_head "TYPEMASK".data mtSeg4.data _ c (head?_append_some hh _) hc nmsF_mt_q_4_nil) (nms_all_of_head_notMem "TYPEMASK".data 'T' rfl a _ hq)
    (nms_of_tail_head "TYPEMASK".data mtSeg5.data _ c (head?_append_some hh _) hc nmsF_mt_q_5_nil) (nms_all_of_head_notMem "TYPEMASK".data 'T' rfl a _ hq)
    (nms_of_tail_head "TYPEMASK".data mtSeg6.data _ c (head?_append_some hh _) hc nmsF_mt_q_6_nil) (nms_all_of_head_notMem "TYPEMASK".data 'T' rfl a _ hq)
    (nms_of_tail_head "TYPEMASK".data mtSeg7.data _ c (head?_append_some hh _) hc nmsF_mt_q_7_nil) (nms_all_of_head_notMem "TYPEMASK".data 'T' rfl a _ hq)
    nmsF_mt_q_8_nil

/-- Substituting the second slot of the `mt` form while the `TYPENAME`
slots still hold their placeholder. -/
theorem mt_subst_q_pn (r : List Char) :
    replaceL "TYPEMASK".data r (mtForm "TYPENAME".data "TYPEMASK".data) = mtForm "TYPENAME".data r :=
  form9_subst_b mtSeg0.data mtSeg1.data mtSeg2.data mtSeg3.data mtSeg4.data mtSeg5.data mtSeg6.data mtSeg7.data mtSeg8.data "TYPEMASK".data r "TYPENAME".data (by decide!)
    (nms_of_window "TYPEMASK".data mtSeg0.data _ "TYPENAME".data (take_head_append "TYPENAME".data _ _ (by rfl)) nmsF_mt_q_0_pn) (nms_of_window "TYPEMASK".data "TYPENAME".data _ _ (take_window_append mtSeg1.data _ _ _ (by decide!) (by decide!)) nmsF_mt_q_pn_w1)
    (nms_of_window "TYPEMASK".data mtSeg1.data _ "TYPENAME".data (take_head_append "TYPENAME".data _ _ (by rfl)) nmsF_mt_q_1_pn) (nms_of_window "TYPEMASK".data "TYPENAME".data _ _ (take_window_append mtSeg2.data _ _ _ (by decide!) (by decide!)) nmsF_mt_q_pn_w2)
    (nms_of_window "TYPEMASK".data mtSeg2.data _ "TYPENAME".data (take_head_append "TYPENAME".data _ _ (by rfl)) nmsF_mt_q_2_pn) (nms_of_window "TYPEMASK".data "TYPENAME".data _ _ (take_window_append mtSeg3.data _ _ _ (by decide!) (by decide!)) nmsF_mt_q_pn_w3)
    nmsF_mt_q_3_q
    (nms_of_window "TYPEMASK".data mtSeg4.data _ "TYPENAME".data (take_head_append "TYPENAME".data _ _ (by rfl)) nmsF_mt_q_4_pn) (nms_of_window "TYPEMASK".data "TYPENAME".data _ _ (take_window_append mtSeg5.data _ _ _ (by decide!) (by decide!)) nmsF_mt_q_pn_w5)
    (nms_of_window "TYPEMASK".data mtSeg5.data _ "TYPENAME".data (take_head_append "TYPENAME".data _ _ (by rfl)) nmsF_mt_q_5_pn) (nms_of_window "TYPEMASK".data "TYPENAME".data _ _ (take_window_append mtSeg6.data _ _ _ (by decide!) (by decide!)) nmsF_mt_q_pn_w6)
    (nms_of_window "TYPEMASK".data mtSeg6.data _ "TYPENAME".data (take_head_append "TYPENAME".data _ _ (by rfl)) nmsF_mt_q_6_pn) (nms_of_window "TYPEMASK".data "TYPENAME".data _ _ (take_window_append mtSeg7.data _ _ _ (by decide!) (by decide!)) nmsF_mt_q_pn_w7)
    (nms_of_window "TYPEMASK".data mtSeg7.data _ "TYPENAME".data (take_head_append "TYPENAME".data _ _ (by rfl)) nmsF_mt_q_7_pn) (nms_of_window "TYPEMASK".data "TYPENAME".data mtSeg8.data _ (by decide!) nmsF_mt_q_pn_w8)
    nmsF_mt_q_8_nil

/-- Vacuous substitution on the `mt` form (vv): the pattern occurs nowhere. -/
theorem mt_vac_vv (r : List Char) (a : List Char) (c : Char) (hha : a.head? = some c) (hca : c ∉ "TYPESIZE".data) (hTa : 'T' ∉ a) (b : List Char) (d : Char) (hhb : b.head? = some d) (hcb : d ∉ "TYPESIZE".data) (hTb : 'T' ∉ b) :
    replaceL "TYPESIZE".data r (mtForm a b) = mtForm a b :=
  form9_subst_vac mtSeg0.data mtSeg1.data mtSeg2.data mtSeg3.data mtSeg4.data mtSeg5.data mtSeg6.data mtSeg7.data mtSeg8.data "TYPESIZE".data r a b (by decide!)
    (nms_of_tail_head "TYPESIZE".data mtSeg0.data _ c (head?_append_some hha _) hca nmsF_mt_v_0_nil)
    (nms_all_of_head_notMem "TYPESIZE".data 'T' rfl a _ hTa)
    (nms_of_tail_head "TYPESIZE".data mtSeg1.data _ c (head?_append_some hha _) hca nmsF_mt_v_1_nil)
    (nms_all_of_head_notMem "TYPESIZE".data 'T' rfl a _ hTa)
    (nms_of_tail_head "TYPESIZE".data mtSeg2.data _ c (head?_append_some hha _) hca nmsF_mt_v_2_nil)
    (nms_all_of_head_notMem "TYPESIZE".data 'T' rfl a _ hTa)
    (nms_of_tail_head "TYPESIZE".data mtSeg3.data _ d (head?_append_some hhb _) hcb nmsF_mt_v_3_nil)
    (nms_all_of_head_notMem "TYPESIZE".data 'T' rfl b _ hTb)
    (nms_of_tail_head "TYPESIZE".data mtSeg4.data _ c (head?_append_some hha _) hca nmsF_mt_v_4_nil)
    (nms_all_of_head_notMem "TYPESIZE".data 'T' rfl a _ hTa)
    (nms_of_tail_head "TYPESIZE".data mtSeg5.data _ c (head?_append_some hha _) hca nmsF_mt_v_5_nil)
    (nms_all_of_head_notMem "TYPESIZE".data 'T' rfl a _ hTa)
    (nms_of_tail_head "TYPESIZE".data mtSeg6.data _ c (head?_append_some hha _) hca nmsF_mt_v_6_nil)
    (nms_all_of_head_notMem "TYPESIZE".data 'T' rfl a _ hTa)
    (nms_of_tail_head "TYPESIZE".data mtSeg7.data _ c (head?_append_some hha _) hca nmsF_mt_v_7_nil)
    (nms_all_of_head_notMem "TYPESIZE".data 'T' rfl a _ hTa)
    nmsF_mt_v_8_nil

/-- Vacuous substitution on the `mt` form (vp): the pattern occurs nowhere. -/
theorem mt_vac_vp (r : List Char) (a : List Char) (c : Char) (hha : a.head? = some c) (hca : c ∉ "TYPESIZE".data) (hTa : 'T' ∉ a) :
    replaceL "TYPESIZE".data r (mtForm a "TYPEMASK".data) = mtForm a "TYPEMASK".data :=
  form9_subst_vac mtSeg0.data mtSeg1.data mtSeg2.data mtSeg3.data mtSeg4.data mtSeg5.data mtSeg6.data mtSeg7.data mtSeg8.data "TYPESIZE".data r a "TYPEMASK".data (by decide!)
    (nms_of_tail_head "TYPESIZE".data mtSeg0.data _ c (head?_append_some hha _) hca nmsF_mt_v_0_nil)
    (nms_all_of_head_notMem "TYPESIZE".data 'T' rfl a _ hTa)
    (nms_of_tail_head "TYPESIZE".data mtSeg1.data _ c (head?_append_some hha _) hca nmsF_mt_v_1_nil)
    (nms_all_of_head_notMem "TYPESIZE".data 'T' rfl a _ hTa)
    (nms_of_tail_head "TYPESIZE".data mtSeg2.data _ c (head?_append_some hha _) hca nmsF_mt_v_2_nil)
    (nms_all_of_head_notMem "TYPESIZE".data 'T' rfl a _ hTa)
    (nms_of_window "TYPESIZE".data mtSeg3.data _ "TYPEMASK".data (take_head_append "TYPEMASK".data _ _ (by rfl)) nmsF_mt_v_3_q)
    (nms_of_window "TYPESIZE".data "TYPEMASK".data _ _ (take_window_append mtSeg4.data _ _ _ (by decide!) (by decide!)) nmsF_mt_v_q_w4)
    (nms_of_tail_head "TYPESIZE".data mtSeg4.data _ c (head?_append_some hha _) hca nmsF_mt_v_4_nil)
    (nms_all_of_head_notMem "TYPESIZE".data 'T' rfl a _ hTa)
    (nms_of_tail_head "TYPESIZE".data mtSeg5.data _ c (head?_append_some hha _) hca nmsF_mt_v_5_nil)
    (nms_all_of_head_notMem "TYPESIZE".data 'T' rfl a _ hTa)
    (nms_of_tail_head "TYPESIZE".data mtSeg6.data _ c (head?_append_some hha _) hca nmsF_mt_v_6_nil)
    (nms_all_of_head_notMem "TYPESIZE".data 'T' rfl a _ hTa)
    (nms_of_tail_head "TYPESIZE".data mtSeg7.data _ c (head?_append_some hha _) hca nmsF_mt_v_7_nil)
    (nms_all_of_head_notMem "TYPESIZE".data 'T' rfl a _ hTa)
    nmsF_mt_v_8_nil

/-- Vacuous substitution on the `mt` form (pv): the pattern occurs nowhere. -/
theorem mt_vac_pv (r : List Char) (b : List Char) (d : Char) (hhb : b.head? = some d) (hcb : d ∉ "TYPESIZE".data) (hTb : 'T' ∉ b) :
    replaceL "TYPESIZE".data r (mtForm "TYPENAME".data b) = mtForm "TYPENAME".data b :=
  form9_subst_vac mtSeg0.data mtSeg1.data mtSeg2.data mtSeg3.data mtSeg4.data mtSeg5.data mtSeg6.data mtSeg7.data mtSeg8.data "TYPESIZE".data r "TYPENAME".data b (by decide!)
    (nms_of_window "TYPESIZE".data mtSeg0.data _ "TYPENAME".data (take_head_append "TYPENAME".data _ _ (by rfl)) nmsF_mt_v_0_pn)
    (nms_of_window "TYPESIZE".data "TYPENAME".data _ _ (take_window_append mtSeg1.data _ _ _ (by decide!) (by decide!)) nmsF_mt_v_pn_w1)
    (nms_of_window "TYPESIZE".data mtSeg1.data _ "TYPENAME".data (take_head_append "TYPENAME".data _ _ (by rfl)) nmsF_mt_v_1_pn)
    (nms_of_window "TYPESIZE".data "TYPENAME".data _ _ (take_window_append mtSeg2.data _ _ _ (by decide!) (by decide!)) nmsF_mt_v_pn_w2)
    (nms_of_window "TYPESIZE".data mtSeg2.data _ "TYPENAME".data (take_head_append "TYPENAME".data _ _ (by rfl)) nmsF_mt_v_2_pn)
    (nms_of_window "TYPESIZE".data "TYPENAME".data _ _ (take_window_append mtSeg3.data _ _ _ (by decide!) (by decide!)) nmsF_mt_v_pn_w3)
    (nms_of_tail_head "TYPESIZE".data mtSeg3.data _ d (head?_append_some hhb _) hcb nmsF_mt_v_3_nil)
    (nms_all_of_head_notMem "TYPESIZE".data 'T' rfl b _ hTb)
    (nms_of_window "TYPESIZE".data mtSeg4.data _ "TYPENAME".data (take_head_append "TYPENAME".data _ _ (by rfl)) nmsF_mt_v_4_pn)
    (nms_of_window "TYPESIZE".data "TYPENAME".data _ _ (take_window_append mtSeg5.data _ _ _ (by decide!) (by decide!)) nmsF_mt_v_pn_w5)
    (nms_of_window "TYPESIZE".data mtSeg5.data _ "TYPENAME".data (take_head_append "TYPENAME".data _ _ (by rfl)) nmsF_mt_v_5_pn)
    (nms_of_window "TYPESIZE".data "TYPENAME".data _ _ (take_window_append mtSeg6.data _ _ _ (by decide!) (by decide!)) nmsF_mt_v_pn_w6)
    (nms_of_window "TYPESIZE".data mtSeg6.data _ "TYPENAME".data (take_head_append "TYPENAME".data _ _ (by rfl)) nmsF_mt_v_6_pn)
    (nms_of_window "TYPESIZE".data "TYPENAME".data _ _ (take_window_append mtSeg7.data _ _ _ (by decide!) (by decide!)) nmsF_mt_v_pn_w7)
    (nms_of_window "TYPESIZE".data mtSeg7.data _ "TYPENAME".data (take_head_append "TYPENAME".data _ _ (by rfl)) nmsF_mt_v_7_pn)
    (nms_of_window "TYPESIZE".data "TYPENAME".data mtSeg8.data _ (by decide!) nmsF_mt_v_pn_w8)
    nmsF_mt_v_8_nil

/-- Vacuous substitution on the `mt` form (pp): the pattern occurs nowhere. -/
theorem mt_vac_pp (r : List Char) :
    replaceL "TYPESIZE".data r (mtForm "TYPENAME".data "TYPEMASK".data) = mtForm "TYPENAME".data "TYPEMASK".data :=
  form9_subst_vac mtSeg0.data mtSeg1.data mtSeg2.data mtSeg3.data mtSeg4.data mtSeg5.data mtSeg6.data mtSeg7.data mtSeg8.data "TYPESIZE".data r "TYPENAME".data "TYPEMASK".data (by decide!)
    (nms_of_window "TYPESIZE".data mtSeg0.data _ "TYPENAME".data (take_head_append "TYPENAME".data _ _ (by rfl)) nmsF_mt_v_0_pn)
    (nms_of_window "TYPESIZE".data "TYPENAME".data _ _ (take_window_append mtSeg1.data _ _ _ (by decide!) (by decide!)) nmsF_mt_v_pn_w1)
    (nms_of_window "TYPESIZE".data mtSeg1.data _ "TYPENAME".data (take_head_append "TYPENAME".data _ _ (by rfl)) nmsF_mt_v_1_pn)
    (nms_of_window "TYPESIZE".data "TYPENAME".data _ _ (take_window_append mtSeg2.data _ _ _ (by decide!) (by decide!)) nmsF_mt_v_pn_w2)
    (nms_of_window "TYPESIZE".data mtSeg2.data _ "TYPENAME".data (take_head_append "TYPENAME".data _ _ (by rfl)) nmsF_mt_v_2_pn)
    (nms_of_window "TYPESIZE".data "TYPENAME".data _ _ (take_window_append mtSeg3.data _ _ _ (by decide!) (by decide!)) nmsF_mt_v_pn_w3)
    (nms_of_window "TYPESIZE".data mtSeg3.data _ "TYPEMASK".data (take_head_append "TYPEMASK".data _ _ (by rfl)) nmsF_mt_v_3_q)
    (nms_of_window "TYPESIZE".data "TYPEMASK".data _ _ (take_window_append mtSeg4.data _ _ _ (by decide!) (by decide!)) nmsF_mt_v_q_w4)
    (nms_of_window "TYPESIZE".data mtSeg4.data _ "TYPENAME".data (take_head_append "TYPENAME".data _ _ (by rfl)) nmsF_mt_v_4_pn)
    (nms_of_window "TYPESIZE".data "TYPENAME".data _ _ (take_window_append mtSeg5.data _ _ _ (by decide!) (by decide!)) nmsF_mt_v_pn_w5)
    (nms_of_window "TYPESIZE".data mtSeg5.data _ "TYPENAME".data (take_head_append "TYPENAME".data _ _ (by rfl)) nmsF_mt_v_5_pn)
    (nms_of_window "TYPESIZE".data "TYPENAME".data _ _ (take_window_append mtSeg6.data _ _ _ (by decide!) (by decide!)) nmsF_mt_v_pn_w6)
    (nms_of_window "TYPESIZE".data mtSeg6.data _ "TYPENAME".data (take_head_append "TYPENAME".data _ _ (by rfl)) nmsF_mt_v_6_pn)
    (nms_of_window "TYPESIZE".data "TYPENAME".data _ _ (take_window_append mtSeg7.data _ _ _ (by decide!) (by decide!)) nmsF_mt_v_pn_w7)
    (nms_of_window "TYPESIZE".data mtSeg7.data _ "TYPENAME".data (take_head_append "TYPENAME".data _ _ (by rfl)) nmsF_mt_v_7_pn)
    (nms_of_window "TYPESIZE".data "TYPENAME".data mtSeg8.data _ (by decide!) nmsF_mt_v_pn_w8)
    nmsF_mt_v_8_nil

/-- Substituting the `TYPENAME` slots of the `mm` form while the second slot
still holds its placeholder. -/
theorem mm_subst_pn_q (r : List Char) :
    replaceL "TYPENAME".data r (mmForm "TYPENAME".data "TYPESIZE".data) = mmForm r "TYPESIZE".data :=
  form9_subst_a mmSeg0.data mmSeg1.data mmSeg2.data mmSeg3.data mmSeg4.data mmSeg5.data mmSeg6.data mmSeg7.data mmSeg8.data "TYPENAME".data r "TYPESIZE".data (by decide!)
    nmsF_mm_pn_0_pn nmsF_mm_pn_1_pn nmsF_mm_pn_2_pn
    nmsF_mm_pn_3_full
    nmsF_mm_pn_q_t4
    nmsF_mm_pn_4_pn nmsF_mm_pn_5_pn nmsF_mm_pn_6_pn nmsF_mm_pn_7_pn
    nmsF_mm_pn_8_nil

/-- Substituting the `TYPENAME` slots of the `mm` form when the second slot
already holds a value `b` that starts with a character outside the pattern
and contains no letter T. -/
theorem mm_subst_pn_val (r b : List Char) (c : Char) (hh : b.head? = some c)
    (hc : c ∉ "TYPENAME".data) (hT : 'T' ∉ b) :
    replaceL "TYPENAME".data r (mmForm "TYPENAME".data b) = mmForm r b :=
  form9_subst_a mmSeg0.data mmSeg1.data mmSeg2.data mmSeg3.data mmSeg4.data mmSeg5.data mmSeg6.data mmSeg7.data mmSeg8.data "TYPENAME".data r b (by decide!)
    nmsF_mm_pn_0_pn nmsF_mm_pn_1_pn nmsF_mm_pn_2_pn
    (nms_of_tail_head "TYPENAME".data mmSeg3.data _ c (head?_append_some hh _) hc nmsF_mm_pn_3_nil)
    (nms_all_of_head_notMem "TYPENAME".data 'T' rfl b _ hT)
    nmsF_mm_pn_4_pn nmsF_mm_pn_5_pn nmsF_mm_pn_6_pn nmsF_mm_pn_7_pn
    nmsF_mm_pn_8_nil

/-- Substituting the second slot of the `mm` form when the `TYPENAME` slots
already hold a value `a`. -/
theorem mm_subst_q_val (r a : List Char) (c : Char) (hh : a.head? = some c)
    (hc : c ∉ "TYPESIZE".data) (hq : 'T' ∉ a) :
    replaceL "TYPESIZE".data r (mmForm a "TYPESIZE".data) = mmForm a r :=
  form9_subst_b mmSeg0.data mmSeg1.data mmSeg2.data mmSeg3.data mmSeg4.data mmSeg5.data mmSeg6.data mmSeg7.data mmSeg8.data "TYPESIZE".data r a (by decide!)
    (nms_of_tail_head "TYPESIZE".data mmSeg0.data _ c (head?_append_some hh _) hc nmsF_mm_q_0_nil) (nms_all_of_head_notMem "TYPESIZE".data 'T' rfl a _ hq)
    (nms_of_tail_head "TYPESIZE".data mmSeg1.data _ c (head?_append_some hh _) hc nmsF_mm_q_1_nil) (nms_all_of_head_notMem "TYPESIZE".data 'T' rfl a _ hq)
    (nms_of_tail_head "TYPESIZE".data mmSeg2.data _ c (head?_append_some hh _) hc nmsF_mm_q_2_nil) (nms_all_of_head_notMem "TYPESIZE".data 'T' rfl a _ hq)
    nmsF_mm_q_3_q
    (nms_of_tail_head "TYPESIZE".data mmSeg4.data _ c (head?_append_some hh _) hc nmsF_mm_q_4_nil) (nms_all_of_head_notMem "TYPESIZE".data 'T' rfl a _ hq)
    (nms_of_tail_head "TYPESIZE".data mmSeg5.data _ c (head?_append_some hh _) hc nmsF_mm_q_5_nil) (nms_all_of_head_notMem "TYPESIZE".data 'T' rfl a _ hq)
    (nms_of_tail_head "TYPESIZE".data mmSeg6.data _ c (head?_append_some hh _) hc nmsF_mm_q_6_nil) (nms_all_of_head_notMem "TYPESIZE".data 'T' rfl a _ hq)
    (nms_of_tail_head "TYPESIZE".data mmSeg7.data _ c (head?_append_some hh _) hc nmsF_mm_q_7_nil) (nms_all_of_head_notMem "TYPESIZE".data 'T' rfl a _ hq)
    nmsF_mm_q_8_nil

/-- Substituting the second slot of the `mm` form while the `TYPENAME`
slots still hold their placeholder. -/
theorem mm_subst_q_pn (r : List Char) :
    replaceL "TYPESIZE".data r (mmForm "TYPENAME".data "TYPESIZE".data) = mmForm "TYPENAME".data r :=
  form9_subst_b mmSeg0.data mmSeg1.data mmSeg2.data mmSeg3.data mmSeg4.data mmSeg5.data mmSeg6.data mmSeg7.data mmSeg8.data "TYPESIZE".data r "TYPENAME".data (by decide!)
    (nms_of_window "TYPESIZE".data mmSeg0.data _ "TYPENAME".data (take_head_append "TYPENAME".data _ _ (by rfl)) nmsF_mm_q_0_pn) (nms_of_window "TYPESIZE".data "TYPENAME".data _ _ (take_window_append mmSeg1.data _ _ _ (by decide!) (by decide!)) nmsF_mm_q_pn_w1)
    (nms_of_window "TYPESIZE".data mmSeg1.data _ "TYPENAME".data (take_head_append "TYPENAME".data _ _ (by rfl)) nmsF_mm_q_1_pn) (nms_of_window "TYPESIZE".data "TYPENAME".data _ _ (take_window_append mmSeg2.data _ _ _ (by decide!) (by decide!)) nmsF_mm_q_pn_w2)
    (nms_of_window "TYPESIZE".data mmSeg2.data _ "TYPENAME".data (take_head_append "TYPENAME".data _ _ (by rfl)) nmsF_mm_q_2_pn) (nms_of_window "TYPESIZE".data "TYPENAME".data _ _ (take_window_append mmSeg3.data _ _ _ (by decide!) (by decide!)) nmsF_mm_q_pn_w3)
    nmsF_mm_q_3_q
    (nms_of_window "TYPESIZE".data mmSeg4.data _ "TYPENAME".data (take_head_append "TYPENAME".data _ _ (by rfl)) nmsF_mm_q_4_pn) (nms_of_window "TYPESIZE".data "TYPENAME".data _ _ (take_window_append mmSeg5.data _ _ _ (by decide!) (by decide!)) nmsF_mm_q_pn_w5)
    (nms_of_window "TYPESIZE".data mmSeg5.data _ "TYPENAME".data (take_head_append "TYPENAME".data _ _ (by rfl)) nmsF_mm_q_5_pn) (nms_of_window "TYPESIZE".data "TYPENAME".data _ _ (take_window_append mmSeg6.data _ _ _ (by decide!) (by decide!)) nmsF_mm_q_pn_w6)
    (nms_of_window "TYPESIZE".data mmSeg6.data _ "TYPENAME".data (take_head_append "TYPENAME".data _ _ (by rfl)) nmsF_mm_q_6_pn) (nms_of_window "TYPESIZE".data "TYPENAME".data _ _ (take_window_append mmSeg7.data _ _ _ (by decide!) (by decide!)) nmsF_mm_q_pn_w7)
    (nms_of_window "TYPESIZE".data mmSeg7.data _ "TYPENAME".data (take_head_append "TYPENAME".data _ _ (by rfl)) nmsF_mm_q_7_pn) (nms_of_window "TYPESIZE".data "TYPENAME".data mmSeg8.data _ (by decide!) nmsF_mm_q_pn_w8)
    nmsF_mm_q_8_nil

/-- Vacuous substitution on the `mm` form (vv): the pattern occurs nowhere. -/
theorem mm_vac_vv (r : List Char) (a : List Char) (c : Char) (hha : a.head? = some c) (hca : c ∉ "TYPEMASK".data) (hTa : 'T' ∉ a) (b : List Char) (d : Char) (hhb : b.head? = some d) (hcb : d ∉ "TYPEMASK".data) (hTb : 'T' ∉ b) :
    replaceL "TYPEMASK".data r (mmForm a b) = mmForm a b :=
  form9_subst_vac mmSeg0.data mmSeg1.data mmSeg2.data mmSeg3.data mmSeg4.data mmSeg5.data mmSeg6.data mmSeg7.data mmSeg8.data "TYPEMASK".data r a b (by decide!)
    (nms_of_tail_head "TYPEMASK".data mmSeg0.data _ c (head?_append_some hha _) hca nmsF_mm_v_0_nil)
    (nms_all_of_head_notMem "TYPEMASK".data 'T' rfl a _ hTa)
    (nms_of_tail_head "TYPEMASK".data mmSeg1.data _ c (head?_append_some hha _) hca nmsF_mm_v_1_nil)
    (nms_all_of_head_notMem "TYPEMASK".data 'T' rfl a _ hTa)
    (nms_of_tail_head "TYPEMASK".data mmSeg2.data _ c (head?_append_some hha _) hca nmsF_mm_v_2_nil)
    (nms_all_of_head_notMem "TYPEMASK".data 'T' rfl a _ hTa)
    (nms_of_tail_head "TYPEMASK".data mmSeg3.data _ d (head?_append_some hhb _) hcb nmsF_mm_v_3_nil)
    (nms_all_of_head_notMem "TYPEMASK".data 'T' rfl b _ hTb)
    (nms_of_tail_head "TYPEMASK".data mmSeg4.data _ c (head?_append_some hha _) hca nmsF_mm_v_4_nil)
    (nms_all_of_head_notMem "TYPEMASK".data 'T' rfl a _ hTa)
    (nms_of_tail_head "TYPEMASK".data mmSeg5.data _ c (head?_append_some hha _) hca nmsF_mm_v_5_nil)
    (nms_all_of_head_notMem "TYPEMASK".data 'T' rfl a _ hTa)
    (nms_of_tail_head "TYPEMASK".data mmSeg6.data _ c (head?_append_some hha _) hca nmsF_mm_v_6_nil)
    (nms_all_of_head_notMem "TYPEMASK".data 'T' rfl a _ hTa)
    (nms_of_tail_head "TYPEMASK".data mmSeg7.data _ c (head?_append_some hha _) hca nmsF_mm_v_7_nil)
    (nms_all_of_head_notMem "TYPEMASK".data 'T' rfl a _ hTa)
    nmsF_mm_v_8_nil

/-- Vacuous substitution on the `mm` form (vp): the pattern occurs nowhere. -/
theorem mm_vac_vp (r : List Char) (a : List Char) (c : Char) (hha : a.head? = some c) (hca : c ∉ "TYPEMASK".data) (hTa : 'T' ∉ a) :
    replaceL "TYPEMASK".data r (mmForm a "TYPESIZE".data) = mmForm a "TYPESIZE".data :=
  form9_subst_vac mmSeg0.data mmSeg1.data mmSeg2.data mmSeg3.data mmSeg4.data mmSeg5.data mmSeg6.data mmSeg7.data mmSeg8.data "TYPEMASK".data r a "TYPESIZE".data (by decide!)
    (nms_of_tail_head "TYPEMASK".data mmSeg0.data _ c (head?_append_some hha _) hca nmsF_mm_v_0_nil)
    (nms_all_of_head_notMem "TYPEMASK".data 'T' rfl a _ hTa)
    (nms_of_tail_head "TYPEMASK".data mmSeg1.data _ c (head?_append_some hha _) hca nmsF_mm_v_1_nil)
    (nms_all_of_head_notMem "TYPEMASK".data 'T' rfl a _ hTa)
    (nms_of_tail_head "TYPEMASK".data mmSeg2.data _ c (head?_append_some hha _) hca nmsF_mm_v_2_nil)
    (nms_all_of_head_notMem "TYPEMASK".data 'T' rfl a _ hTa)
    (nms_of_window "TYPEMASK".data mmSeg3.data _ "TYPESIZE".data (take_head_append "TYPESIZE".data _ _ (by rfl)) nmsF_mm_v_3_q)
    (nms_of_window "TYPEMASK".data "TYPESIZE".data _ _ (take_window_append mmSeg4.data _ _ _ (by decide!) (by decide!)) nmsF_mm_v_q_w4)
    (nms_of_tail_head "TYPEMASK".data mmSeg4.data _ c (head?_append_some hha _) hca nmsF_mm_v_4_nil)
    (nms_all_of_head_notMem "TYPEMASK".data 'T' rfl a _ hTa)
    (nms_of_tail_head "TYPEMASK".data mmSeg5.data _ c (head?_append_some hha _) hca nmsF_mm_v_5_nil)
    (nms_all_of_head_notMem "TYPEMASK".data 'T' rfl a _ hTa)
    (nms_of_tail_head "TYPEMASK".data mmSeg6.data _ c (head?_append_some hha _) hca nmsF_mm_v_6_nil)
    (nms_all_of_head_notMem "TYPEMASK".data 'T' rfl a _ hTa)
    (nms_of_tail_head "TYPEMASK".data mmSeg7.data _ c (head?_append_some hha _) hca nmsF_mm_v_7_nil)
    (nms_all_of_head_notMem "TYPEMASK".data 'T' rfl a _ hTa)
    nmsF_mm_v_8_nil

/-- Vacuous substitution on the `mm` form (pv): the pattern occurs nowhere. -/
theorem mm_vac_pv (r : List Char) (b : List Char) (d : Char) (hhb : b.head? = some d) (hcb : d ∉ "TYPEMASK".data) (hTb : 'T' ∉ b) :
    replaceL "TYPEMASK".data r (mmForm "TYPENAME".data b) = mmForm "TYPENAME".data b :=
  form9_subst_vac mmSeg0.data mmSeg1.data mmSeg2.data mmSeg3.data mmSeg4.data mmSeg5.data mmSeg6.data mmSeg7.data mmSeg8.data "TYPEMASK".data r "TYPENAME".data b (by decide!)
    (nms_of_window "TYPEMASK".data mmSeg0.data _ "TYPENAME".data (take_head_append "TYPENAME".data _ _ (by rfl)) nmsF_mm_v_0_pn)
    (nms_of_window "TYPEMASK".data "TYPENAME".data _ _ (take_window_append mmSeg1.data _ _ _ (by decide!) (by decide!)) nmsF_mm_v_pn_w1)
    (nms_of_window "TYPEMASK".data mmSeg1.data _ "TYPENAME".data (take_head_append "TYPENAME".data _ _ (by rfl)) nmsF_mm_v_1_pn)
    (nms_of_window "TYPEMASK".data "TYPENAME".data _ _ (take_window_append mmSeg2.data _ _ _ (by decide!) (by decide!)) nmsF_mm_v_pn_w2)
    (nms_of_window "TYPEMASK".data mmSeg2.data _ "TYPENAME".data (take_head_append "TYPENAME".data _ _ (by rfl)) nmsF_mm_v_2_pn)
    (nms_of_window "TYPEMASK".data "TYPENAME".data _ _ (take_window_append mmSeg3.data _ _ _ (by decide!) (by decide!)) nmsF_mm_v_pn_w3)
    (nms_of_tail_head "TYPEMASK".data mmSeg3.data _ d (head?_append_some hhb _) hcb nmsF_mm_v_3_nil)
    (nms_all_of_head_notMem "TYPEMASK".data 'T' rfl b _ hTb)
    (nms_of_window "TYPEMASK".data mmSeg4.data _ "TYPENAME".data (take_head_append "TYPENAME".data _ _ (by rfl)) nmsF_mm_v_4_pn)
    (nms_of_window "TYPEMASK".data "TYPENAME".data _ _ (take_window_append mmSeg5.data _ _ _ (by decide!) (by decide!)) nmsF_mm_v_pn_w5)
    (nms_of_window "TYPEMASK".data mmSeg5.data _ "TYPENAME".data (take_head_append "TYPENAME".data _ _ (by rfl)) nmsF_mm_v_5_pn)
    (nms_of_window "TYPEMASK".data "TYPENAME".data _ _ (take_window_append mmSeg6.data _ _ _ (by decide!) (by decide!)) nmsF_mm_v_pn_w6)
    (nms_of_window "TYPEMASK".data mmSeg6.data _ "TYPENAME".data (take_head_append "TYPENAME".data _ _ (by rfl)) nmsF_mm_v_6_pn)
    (nms_of_window "TYPEMASK".data "TYPENAME".data _ _ (take_window_append mmSeg7.data _ _ _ (by decide!) (by decide!)) nmsF_mm_v_pn_w7)
    (nms_of_window "TYPEMASK".data mmSeg7.data _ "TYPENAME".data (take_head_append "TYPENAME".data _ _ (by rfl)) nmsF_mm_v_7_pn)
    (nms_of_window "TYPEMASK".data "TYPENAME".data mmSeg8.data _ (by decide!) nmsF_mm_v_pn_w8)
    nmsF_mm_v_8_nil

/-- Vacuous substitution on the `mm` form (pp): the pattern occurs nowhere. -/
theorem mm_vac_pp (r : List Char) :
    replaceL "TYPEMASK".data r (mmForm "TYPENAME".data "TYPESIZE".data) = mmForm "TYPENAME".data "TYPESIZE".data :=
  form9_subst_vac mmSeg0.data mmSeg1.data mmSeg2.data mmSeg3.data mmSeg4.data mmSeg5.data mmSeg6.data mmSeg7.data mmSeg8.data "TYPEMASK".data r "TYPENAME".data "TYPESIZE".data (by decide!)
    (nms_of_window "TYPEMASK".data mmSeg0.data _ "TYPENAME".data (take_head_append "TYPENAME".data _ _ (by rfl)) nmsF_mm_v_0_pn)
    (nms_of_window "TYPEMASK".data "TYPENAME".data _ _ (take_window_append mmSeg1.data _ _ _ (by decide!) (by decide!)) nmsF_mm_v_pn_w1)
    (nms_of_window "TYPEMASK".data mmSeg1.data _ "TYPENAME".data (take_head_append "TYPENAME".data _ _ (by rfl)) nmsF_mm_v_1_pn)
    (nms_of_window "TYPEMASK".data "TYPENAME".data _ _ (take_window_append mmSeg2.data _ _ _ (by decide!) (by decide!)) nmsF_mm_v_pn_w2)
    (nms_of_window "TYPEMASK".data mmSeg2.data _ "TYPENAME".data (take_head_append "TYPENAME".data _ _ (by rfl)) nmsF_mm_v_2_pn)
    (nms_of_window "TYPEMASK".data "TYPENAME".data _ _ (take_window_append mmSeg3.data _ _ _ (by decide!) (by decide!)) nmsF_mm_v_pn_w3)
    (nms_of_window "TYPEMASK".data mmSeg3.data _ "TYPESIZE".data (take_head_append "TYPESIZE".data _ _ (by rfl)) nmsF_mm_v_3_q)
    (nms_of_window "TYPEMASK".data "TYPESIZE".data _ _ (take_window_append mmSeg4.data _ _ _ (by decide!) (by decide!)) nmsF_mm_v_q_w4)
    (nms_of_window "TYPEMASK".data mmSeg4.data _ "TYPENAME".data (take_head_append "TYPENAME".data _ _ (by rfl)) nmsF_mm_v_4_pn)
    (nms_of_window "TYPEMASK".data "TYPENAME".data _ _ (take_window_append mmSeg5.data _ _ _ (by decide!) (by decide!)) nmsF_mm_v_pn_w5)
    (nms_of_window "TYPEMASK".data mmSeg5.data _ "TYPENAME".data (take_head_append "TYPENAME".data _ _ (by rfl)) nmsF_mm_v_5_pn)
    (nms_of_window "TYPEMASK".data "TYPENAME".data _ _ (take_window_append mmSeg6.data _ _ _ (by decide!) (by decide!)) nmsF_mm_v_pn_w6)
    (nms_of_window "TYPEMASK".data mmSeg6.data _ "TYPENAME".data (take_head_append "TYPENAME".data _ _ (by rfl)) nmsF_mm_v_6_pn)
    (nms_of_window "TYPEMASK".data "TYPENAME".data _ _ (take_window_append mmSeg7.data _ _ _ (by decide!) (by decide!)) nmsF_mm_v_pn_w7)
    (nms_of_window "TYPEMASK".data mmSeg7.data _ "TYPENAME".data (take_head_append "TYPENAME".data _ _ (by rfl)) nmsF_mm_v_7_pn)
    (nms_of_window "TYPEMASK".data "TYPENAME".data mmSeg8.data _ (by decide!) nmsF_mm_v_pn_w8)
    nmsF_mm_v_8_nil

/-! ### Shape of the generated per-width blocks -/

theorem ffLoop_zero (acc : String) : ffLoop 0 acc = acc := rfl

theorem ffLoop_succ (n : Nat) (acc : String) : ffLoop (n + 1) acc = ffLoop n (acc ++ "ff") := rfl

theorem ffRep_zero : ffRep 0 = "" := rfl

theorem ffRep_succ (n : Nat) : ffRep (n + 1) = "ff" ++ ffRep n := rfl

theorem ffLoop_eq (n : Nat) : ∀ acc : String, ffLoop n acc = acc ++ ffRep n := by
  induction n with
  | zero => intro acc; rw [ffLoop_zero, ffRep_zero]; exact (String.append_empty acc).symm
  | succ n ih =>
    intro acc
    rw [ffLoop_succ, ih, ffRep_succ, String.append_assoc]

theorem maskStr_eq (size : Nat) : maskStr size = "0x" ++ ffRep (size / 8) :=
  ffLoop_eq (size / 8) "0x"

theorem maskStr_head (size : Nat) : (maskStr size).data.head? = some '0' := by
  rw [maskStr_eq]
  rfl

theorem ffRep_chars (n : Nat) : ∀ c, c ∈ (ffRep n).data → c = 'f' := by
  induction n with
  | zero =>
    intro c hc
    have e : (ffRep 0).data = ([] : List Char) := rfl
    rw [e] at hc
    cases hc
  | succ n ih =>
    intro c hc
    rw [ffRep_succ] at hc
    have e : (("ff" ++ ffRep n : String)).data = 'f' :: 'f' :: (ffRep n).data := rfl
    rw [e] at hc
    simp only [List.mem_cons] at hc
    rcases hc with rfl | rfl | h
    · rfl
    · rfl
    · exact ih c h

theorem maskStr_noT (size : Nat) : 'T' ∉ (maskStr size).data := by
  rw [maskStr_eq]
  intro hmem
  have e : (("0x" ++ ffRep (size / 8) : String)).data = '0' :: 'x' :: (ffRep (size / 8)).data := rfl
  rw [e] at hmem
  simp only [List.mem_cons] at hmem
  rcases hmem with h | h | h
  · exact absurd h (by decide)
  · exact absurd h (by decide)
  · exact absurd (ffRep_chars (size / 8) 'T' h) (by decide)

theorem nameStr_head (size : Nat) : (nameStr size).data.head? = some 'U' := rfl

theorem generate_cast_small (w : Nat) (hw : w < 32) :
    generate_cast w =
      strReplace (strReplace (strReplace MASK_TEMPLATE "TYPENAME" (nameStr w)) "TYPEMASK"
        (maskStr w)) "TYPESIZE" (toString w) := by
  unfold generate_cast
  simp only [if_pos hw]

theorem generate_cast_big (w : Nat) (hw : ¬ w < 32) :
    generate_cast w =
      strReplace (strReplace (strReplace MASK_TEMPLATE "TYPENAME" (nameStr w)) "TYPEMASK"
        (maskStr w)) "TYPESIZE" (toString w) ++
      strReplace (strReplace (strReplace MINI_MASK_TEMPLATE "TYPENAME" (nameStr w)) "TYPEMASK"
        (maskStr w)) "TYPESIZE" (toString w) := by
  unfold generate_cast
  simp only [if_neg hw]

theorem strReplace_data (s pat r : String) :
    (strReplace s pat r).data = replaceL pat.data r.data s.data := rfl

theorem mask_template_data (w : Nat) (hTn : 'T' ∉ (nameStr w).data) :
    (strReplace (strReplace (strReplace MASK_TEMPLATE "TYPENAME" (nameStr w)) "TYPEMASK"
      (maskStr w)) "TYPESIZE" (toString w)).data =
    mtForm (nameStr w).data (maskStr w).data := by
  have e1 : (strReplace MASK_TEMPLATE "TYPENAME" (nameStr w)).data =
      mtForm (nameStr w).data "TYPEMASK".data := by
    rw [strReplace_data]
    rw [mtForm_eq]
    exact mt_subst_pn_q (nameStr w).data
  have e2 : (strReplace (strReplace MASK_TEMPLATE "TYPENAME" (nameStr w)) "TYPEMASK"
      (maskStr w)).data = mtForm (nameStr w).data (maskStr w).data := by
    rw [strReplace_data]
    rw [e1]
    exact mt_subst_q_val (maskStr w).data (nameStr w).data 'U' (nameStr_head w) (by decide) hTn
  rw [strReplace_data]
  rw [e2]
  exact mt_vac_vv (toString w).data (nameStr w).data 'U' (nameStr_head w) (by decide) hTn
    (maskStr w).data '0' (maskStr_head w) (by decide) (maskStr_noT w)

theorem mini_template_data (w : Nat) (hTn : 'T' ∉ (nameStr w).data) :
    (strReplace (strReplace (strReplace MINI_MASK_TEMPLATE "TYPENAME" (nameStr w)) "TYPEMASK"
      (maskStr w)) "TYPESIZE" (toString w)).data =
    mmForm (nameStr w).data (toString w).data := by
  have e1 : (strReplace MINI_MASK_TEMPLATE "TYPENAME" (nameStr w)).data =
      mmForm (nameStr w).data "TYPESIZE".data := by
    rw [strReplace_data]
    rw [mmForm_eq]
    exact mm_subst_pn_q (nameStr w).data
  have e2 : (strReplace (strReplace MINI_MASK_TEMPLATE "TYPENAME" (nameStr w)) "TYPEMASK"
      (maskStr w)).data = mmForm (nameStr w).data "TYPESIZE".data := by
    rw [strReplace_data]
    rw [e1]
    exact mm_vac_vp (maskStr w).data (nameStr w).data 'U' (nameStr_head w) (by decide) hTn
  rw [strReplace_data]
  rw [e2]
  exact mm_subst_q_val (toString w).data (nameStr w).data 'U' (nameStr_head w) (by decide) hTn

theorem noT_names : ∀ w ∈ int_sizes, 'T' ∉ (nameStr w).data := by decide!

theorem generate_cast_data_small (w : Nat) (hw : w < 32) (hTn : 'T' ∉ (nameStr w).data) :
    (generate_cast w).data = mtForm (nameStr w).data (maskStr w).data := by
  rw [generate_cast_small w hw]
  exact mask_template_data w hTn

theorem generate_cast_data_big (w : Nat) (hw : ¬ w < 32) (hTn : 'T' ∉ (nameStr w).data) :
    (generate_cast w).data =
      mtForm (nameStr w).data (maskStr w).data ++ mmForm (nameStr w).data (toString w).data := by
  rw [generate_cast_big w hw]
  show (strReplace (strReplace (strReplace MASK_TEMPLATE "TYPENAME" (nameStr w)) "TYPEMASK"
      (maskStr w)) "TYPESIZE" (toString w)).data ++
    (strReplace (strReplace (strReplace MINI_MASK_TEMPLATE "TYPENAME" (nameStr w)) "TYPEMASK"
      (maskStr w)) "TYPESIZE" (toString w)).data = _
  rw [mask_template_data w hTn, mini_template_data w hTn]

/-! ### Claim C1: the mask strings -/

/-- C1: for every width in the static list, the produced mask string is `"0x"`
followed by exactly `w / 8` repetitions of `"ff"` and has length `2 + w / 4`;
in particular `mask 8 = "0xff"`, `mask 32 = "0xffffffff"` (10 characters) and
`mask 256` is `"0x"` followed by 64 `f` characters (66 characters). -/
theorem C1_mask_string :
    (∀ w ∈ int_sizes,
      maskStr w = "0x" ++ String.join (List.replicate (w / 8) "ff") ∧
      (maskStr w).length = 2 + w / 4) ∧
    maskStr 8 = "0xff" ∧
    maskStr 32 = "0xffffffff" ∧ (maskStr 32).length = 10 ∧
    maskStr 256 = "0xffffffffffffffffffffffffffffffffffffffffffffffffffffffffffffffff" ∧
    (maskStr 256).length = 66 := by
  decide!

/-! ### Claim C3: global document structure -/

theorem joinSep_nil (sep : String) : joinSep sep [] = "" := rfl

theorem joinSep_single (sep x : String) : joinSep sep [x] = x := rfl

theorem joinSep_cons (sep x y : String) (l : List String) :
    joinSep sep (x :: y :: l) = x ++ sep ++ joinSep sep (y :: l) := rfl

theorem string_join_cons (s : String) (l : List String) :
    String.join (s :: l) = s ++ String.join l := by
  have aux : ∀ (l : List String) (acc : String),
      l.foldl (fun r s => r ++ s) acc = acc ++ l.foldl (fun r s => r ++ s) "" := by
    intro l
    induction l with
    | nil => intro acc; exact (String.append_empty acc).symm
    | cons t ts ih =>
      intro acc
      show ts.foldl _ (acc ++ t) = acc ++ ts.foldl _ ("" ++ t)
      rw [ih (acc ++ t), ih ("" ++ t), String.empty_append, String.append_assoc]
  show (s :: l).foldl (fun r s => r ++ s) "" = s ++ l.foldl (fun r s => r ++ s) ""
  show l.foldl (fun r s => r ++ s) ("" ++ s) = _
  rw [aux l ("" ++ s), String.empty_append]

theorem joinSep_eq_join_intersperse (sep : String) :
    ∀ l : List String, joinSep sep l = String.join (l.intersperse sep) := by
  intro l
  induction l with
  | nil => rfl
  | cons x tail ih =>
    cases tail with
    | nil =>
      show x = String.join [x]
      rw [string_join_cons]
      show x = x ++ String.join []
      have : String.join [] = "" := rfl
      rw [this, String.append_empty]
    | cons y rest =>
      rw [joinSep_cons, ih, List.intersperse_cons₂, string_join_cons, string_join_cons,
        String.append_assoc]

/-- C3: the final document is exactly the header, the error definition, the
per-width blocks for the widths 8, 16, …, 256 (all 32 multiples of 8, none
skipped, strictly ascending) joined by single newlines with no separator
before the first or after the last block, and the shared mini-mask helper —
concatenated with nothing in between. -/
theorem C3_document_structure :
    generate_libcast =
      HEADER ++ ERROR_DEFINITION ++
        String.join (((((List.range 32).map fun k => 8 * (k + 1))).map
          generate_cast).intersperse "\n") ++
      MINI_MASK_DEFINITION ∧
    int_sizes = ((List.range 32).map fun k => 8 * (k + 1)) ∧
    List.Pairwise (· < ·) int_sizes ∧
    int_sizes.length = 32 ∧
    (∀ w ∈ int_sizes, 8 ∣ w ∧ 8 ≤ w ∧ w ≤ 256) := by
  refine ⟨?_, by decide, by decide, by decide, by decide⟩
  have hlist : int_sizes = ((List.range 32).map fun k => 8 * (k + 1)) := by decide
  show HEADER ++ ERROR_DEFINITION ++ joinSep "\n" (int_sizes.map generate_cast) ++
      MINI_MASK_DEFINITION = _
  rw [joinSep_eq_join_intersperse, hlist]

/-! ### Claim C8: determinism and idempotence of a run -/

/-- C8: the generator's output is a fixed byte string: every run writes the
same document `generate_libcast` to the fixed path, regardless of the
pre-existing file-system state; running twice is the same as running once,
and no other path is touched. -/
theorem C8_deterministic :
    (∀ fs : FileSys, runGenerator fs outputPath = some generate_libcast) ∧
    (∀ fs₁ fs₂ : FileSys, runGenerator fs₁ outputPath = runGenerator fs₂ outputPath) ∧
    (∀ fs : FileSys, runGenerator (runGenerator fs) = runGenerator fs) ∧
    (∀ (fs : FileSys) (p : String), p ≠ outputPath → runGenerator fs p = fs p) := by
  refine ⟨?_, ?_, ?_, ?_⟩
  · intro fs; simp [runGenerator]
  · intro fs₁ fs₂; simp [runGenerator]
  · intro fs; funext p; simp only [runGenerator]; split <;> rfl
  · intro fs p hp; simp [runGenerator, hp]
theorem nmsN_mt_pn_0 : noMatchScan "TYPENAME".data mtSeg0.data [] = true := by decide!

theorem nmsN_mt_pn_1 : noMatchScan "TYPENAME".data mtSeg1.data [] = true := by decide!

theorem nmsN_mt_pn_2 : noMatchScan "TYPENAME".data mtSeg2.data [] = true := by decide!

theorem nmsN_mt_pn_3 : noMatchScan "TYPENAME".data mtSeg3.data [] = true := by decide!

theorem nmsN_mt_pn_4 : noMatchScan "TYPENAME".data mtSeg4.data [] = true := by decide!

theorem nmsN_mt_pn_5 : noMatchScan "TYPENAME".data mtSeg5.data [] = true := by decide!

theorem nmsN_mt_pn_6 : noMatchScan "TYPENAME".data mtSeg6.data [] = true := by decide!

theorem nmsN_mt_pn_7 : noMatchScan "TYPENAME".data mtSeg7.data [] = true := by decide!

theorem nmsN_mt_pn_8 : noMatchScan "TYPENAME".data mtSeg8.data [] = true := by decide!

theorem nmsN_mt_pm_0 : noMatchScan "TYPEMASK".data mtSeg0.data [] = true := by decide!

theorem nmsN_mt_pm_1 : noMatchScan "TYPEMASK".data mtSeg1.data [] = true := by decide!

theorem nmsN_mt_pm_2 : noMatchScan "TYPEMASK".data mtSeg2.data [] = true := by decide!

theorem nmsN_mt_pm_3 : noMatchScan "TYPEMASK".data mtSeg3.data [] = true := by decide!

theorem nmsN_mt_pm_4 : noMatchScan "TYPEMASK".data mtSeg4.data [] = true := by decide!

theorem nmsN_mt_pm_5 : noMatchScan "TYPEMASK".data mtSeg5.data [] = true := by decide!

theorem nmsN_mt_pm_6 : noMatchScan "TYPEMASK".data mtSeg6.data [] = true := by decide!

theorem nmsN_mt_pm_7 : noMatchScan "TYPEMASK".data mtSeg7.data [] = true := by decide!

theorem nmsN_mt_pm_8 : noMatchScan "TYPEMASK".data mtSeg8.data [] = true := by decide!

theorem nmsN_mt_ps_0 : noMatchScan "TYPESIZE".data mtSeg0.data [] = true := by decide!

theorem nmsN_mt_ps_1 : noMatchScan "TYPESIZE".data mtSeg1.data [] = true := by decide!

theorem nmsN_mt_ps_2 : noMatchScan "TYPESIZE".data mtSeg2.data [] = true := by decide!

theorem nmsN_mt_ps_3 : noMatchScan "TYPESIZE".data mtSeg3.data [] = true := by decide!

theorem nmsN_mt_ps_4 : noMatchScan "TYPESIZE".data mtSeg4.data [] = true := by decide!

theorem nmsN_mt_ps_5 : noMatchScan "TYPESIZE".data mtSeg5.data [] = true := by decide!

theorem nmsN_mt_ps_6 : noMatchScan "TYPESIZE".data mtSeg6.data [] = true := by decide!

theorem nmsN_mt_ps_7 : noMatchScan "TYPESIZE".data mtSeg7.data [] = true := by decide!

theorem nmsN_mt_ps_8 : noMatchScan "TYPESIZE".data mtSeg8.data [] = true := by decide!

theorem nmsN_mm_pn_0 : noMatchScan "TYPENAME".data mmSeg0.data [] = true := by decide!

theorem nmsN_mm_pn_1 : noMatchScan "TYPENAME".data mmSeg1.data [] = true := by decide!

theorem nmsN_mm_pn_2 : noMatchScan "TYPENAME".data mmSeg2.data [] = true := by decide!

theorem nmsN_mm_pn_3 : noMatchScan "TYPENAME".data mmSeg3.data [] = true := by decide!

theorem nmsN_mm_pn_4 : noMatchScan "TYPENAME".data mmSeg4.data [] = true := by decide!

theorem nmsN_mm_pn_5 : noMatchScan "TYPENAME".data mmSeg5.data [] = true := by decide!

theorem nmsN_mm_pn_6 : noMatchScan "TYPENAME".data mmSeg6.data [] = true := by decide!

theorem nmsN_mm_pn_7 : noMatchScan "TYPENAME".data mmSeg7.data [] = true := by decide!

theorem nmsN_mm_pn_8 : noMatchScan "TYPENAME".data mmSeg8.data [] = true := by decide!

theorem nmsN_mm_pm_0 : noMatchScan "TYPEMASK".data mmSeg0.data [] = true := by decide!

theorem nmsN_mm_pm_1 : noMatchScan "TYPEMASK".data mmSeg1.data [] = true := by decide!

theorem nmsN_mm_pm_2 : noMatchScan "TYPEMASK".data mmSeg2.data [] = true := by decide!

theorem nmsN_mm_pm_3 : noMatchScan "TYPEMASK".data mmSeg3.data [] = true := by decide!

theorem nmsN_mm_pm_4 : noMatchScan "TYPEMASK".data mmSeg4.data [] = true := by decide!

theorem nmsN_mm_pm_5 : noMatchScan "TYPEMASK".data mmSeg5.data [] = true := by decide!

theorem nmsN_mm_pm_6 : noMatchScan "TYPEMASK".data mmSeg6.data [] = true := by decide!

theorem nmsN_mm_pm_7 : noMatchScan "TYPEMASK".data mmSeg7.data [] = true := by decide!

theorem nmsN_mm_pm_8 : noMatchScan "TYPEMASK".data mmSeg8.data [] = true := by decide!

theorem nmsN_mm_ps_0 : noMatchScan "TYPESIZE".data mmSeg0.data [] = true := by decide!

theorem nmsN_mm_ps_1 : noMatchScan "TYPESIZE".data mmSeg1.data [] = true := by decide!

theorem nmsN_mm_ps_2 : noMatchScan "TYPESIZE".data mmSeg2.data [] = true := by decide!

theorem nmsN_mm_ps_3 : noMatchScan "TYPESIZE".data mmSeg3.data [] = true := by decide!

theorem nmsN_mm_ps_4 : noMatchScan "TYPESIZE".data mmSeg4.data [] = true := by decide!

theorem nmsN_mm_ps_5 : noMatchScan "TYPESIZE".data mmSeg5.data [] = true := by decide!

theorem nmsN_mm_ps_6 : noMatchScan "TYPESIZE".data mmSeg6.data [] = true := by decide!

theorem nmsN_mm_ps_7 : noMatchScan "TYPESIZE".data mmSeg7.data [] = true := by decide!

theorem nmsN_mm_ps_8 : noMatchScan "TYPESIZE".data mmSeg8.data [] = true := by decide!

theorem nms_append (p : List Char) :
    ∀ x y t : List Char,
      noMatchScan p (x ++ y) t = (noMatchScan p x (y ++ t) && noMatchScan p y t) := by
  intro x
  induction x with
  | nil => intro y t; simp [nms_nil]
  | cons c cs ih =>
    intro y t
    rw [List.cons_append, nms_cons, ih y t, nms_cons]
    have e : (cs ++ y) ++ t = cs ++ (y ++ t) := List.append_assoc cs y t
    rw [← e, Bool.and_assoc]

theorem nms_append_intro (p x y t : List Char) (hx : noMatchScan p x (y ++ t) = true)
    (hy : noMatchScan p y t = true) : noMatchScan p (x ++ y) t = true := by
  rw [nms_append, Bool.and_eq_true]
  exact ⟨hx, hy⟩

theorem form9_noOccur (s0 s1 s2 s3 s4 s5 s6 s7 s8 p a b t : List Char)
    (n0 : noMatchScan p s0 [] = true) (n1 : noMatchScan p s1 [] = true)
    (n2 : noMatchScan p s2 [] = true) (n3 : noMatchScan p s3 [] = true)
    (n4 : noMatchScan p s4 [] = true) (n5 : noMatchScan p s5 [] = true)
    (n6 : noMatchScan p s6 [] = true) (n7 : noMatchScan p s7 [] = true)
    (n8 : noMatchScan p s8 [] = true)
    (ha : ∀ u, noMatchScan p a u = true) (hb : ∀ u, noMatchScan p b u = true)
    (ca : Char) (hca : a.head? = some ca) (hcam : ca ∉ p)
    (cb : Char) (hcb : b.head? = some cb) (hcbm : cb ∉ p)
    (ht : ∀ c, t.head? = some c → c ∉ p) :
    noMatchScan p (form9 s0 s1 s2 s3 s4 s5 s6 s7 s8 a b) t = true := by
  unfold form9
  refine nms_append_intro p s0 _ t
    (nms_of_tail_head p s0 _ ca (head?_append_some (head?_append_some hca _) t) hcam n0) ?_
  refine nms_append_intro p a _ t (ha _) ?_
  refine nms_append_intro p s1 _ t
    (nms_of_tail_head p s1 _ ca (head?_append_some (head?_append_some hca _) t) hcam n1) ?_
  refine nms_append_intro p a _ t (ha _) ?_
  refine nms_append_intro p s2 _ t
    (nms_of_tail_head p s2 _ ca (head?_append_some (head?_append_some hca _) t) hcam n2) ?_
  refine nms_append_intro p a _ t (ha _) ?_
  refine nms_append_intro p s3 _ t
    (nms_of_tail_head p s3 _ cb (head?_append_some (head?_append_some hcb _) t) hcbm n3) ?_
  refine nms_append_intro p b _ t (hb _) ?_
  refine nms_append_intro p s4 _ t
    (nms_of_tail_head p s4 _ ca (head?_append_some (head?_append_some hca _) t) hcam n4) ?_
  refine nms_append_intro p a _ t (ha _) ?_
  refine nms_append_intro p s5 _ t
    (nms_of_tail_head p s5 _ ca (head?_append_some (head?_append_some hca _) t) hcam n5) ?_
  refine nms_append_intro p a _ t (ha _) ?_
  refine nms_append_intro p s6 _ t
    (nms_of_tail_head p s6 _ ca (head?_append_some (head?_append_some hca _) t) hcam n6) ?_
  refine nms_append_intro p a _ t (ha _) ?_
  refine nms_append_intro p s7 _ t
    (nms_of_tail_head p s7 _ ca (head?_append_some (head?_append_some hca _) t) hcam n7) ?_
  refine nms_append_intro p a _ t (ha _) ?_
  rw [nms_drop_tail p s8 t ht]
  exact n8

theorem noT_sizes : ∀ w ∈ int_sizes, 'T' ∉ (toString w).data := by decide!

theorem sizeHead_eq : ∀ w ∈ int_sizes, (toString w).data.head? = some (sizeHead w) := by decide!

theorem sizeHead_not_pn : ∀ w ∈ int_sizes, sizeHead w ∉ "TYPENAME".data := by decide!

theorem sizeHead_not_pm : ∀ w ∈ int_sizes, sizeHead w ∉ "TYPEMASK".data := by decide!

theorem sizeHead_not_ps : ∀ w ∈ int_sizes, sizeHead w ∉ "TYPESIZE".data := by decide!

theorem str_ext (s t : String) (h : s.data = t.data) : s = t := by
  cases s; cases t; simp only at h; rw [h]

theorem occursIn_eq_false (p s : List Char) (h : noMatchScan p s [] = true) :
    occursIn p s = false := by
  rw [occursIn, h]
  rfl

theorem mmForm_head (a b : List Char) : (mmForm a b).head? = some '\n' := by
  show (mmSeg0.data ++ _).head? = _
  exact head?_append_some (show mmSeg0.data.head? = some '\n' from rfl) _

/-! ### The ten non-canonical substitution chains -/

theorem mt_chain_o2 (w : Nat) (hTn : 'T' ∉ (nameStr w).data) :
    (strReplace (strReplace (strReplace MASK_TEMPLATE "TYPENAME" (nameStr w)) "TYPESIZE"
      (toString w)) "TYPEMASK" (maskStr w)).data = mtForm (nameStr w).data (maskStr w).data := by
  have e1 : (strReplace MASK_TEMPLATE "TYPENAME" (nameStr w)).data =
      mtForm (nameStr w).data "TYPEMASK".data := by
    rw [strReplace_data]
    rw [mtForm_eq]
    exact mt_subst_pn_q (nameStr w).data
  have e2 : (strReplace (strReplace MASK_TEMPLATE "TYPENAME" (nameStr w)) "TYPESIZE"
      (toString w)).data = mtForm (nameStr w).data "TYPEMASK".data := by
    rw [strReplace_data]
    rw [e1]
    exact mt_vac_vp (toString w).data (nameStr w).data 'U' (nameStr_head w) (by decide) hTn
  rw [strReplace_data]
  rw [e2]
  exact mt_subst_q_val (maskStr w).data (nameStr w).data 'U' (nameStr_head w) (by decide) hTn

theorem mt_chain_o3 (w : Nat) (hTn : 'T' ∉ (nameStr w).data) :
    (strReplace (strReplace (strReplace MASK_TEMPLATE "TYPEMASK" (maskStr w)) "TYPENAME"
      (nameStr w)) "TYPESIZE" (toString w)).data = mtForm (nameStr w).data (maskStr w).data := by
  have e1 : (strReplace MASK_TEMPLATE "TYPEMASK" (maskStr w)).data =
      mtForm "TYPENAME".data (maskStr w).data := by
    rw [strReplace_data]
    rw [mtForm_eq]
    exact mt_subst_q_pn (maskStr w).data
  have e2 : (strReplace (strReplace MASK_TEMPLATE "TYPEMASK" (maskStr w)) "TYPENAME"
      (nameStr w)).data = mtForm (nameStr w).data (maskStr w).data := by
    rw [strReplace_data]
    rw [e1]
    exact mt_subst_pn_val (nameStr w).data (maskStr w).data '0' (maskStr_head w) (by decide)
      (maskStr_noT w)
  rw [strReplace_data]
  rw [e2]
  exact mt_vac_vv (toString w).data (nameStr w).data 'U' (nameStr_head w) (by decide) hTn
    (maskStr w).data '0' (maskStr_head w) (by decide) (maskStr_noT w)

theorem mt_chain_o4 (w : Nat) (hTn : 'T' ∉ (nameStr w).data) :
    (strReplace (strReplace (strReplace MASK_TEMPLATE "TYPEMASK" (maskStr w)) "TYPESIZE"
      (toString w)) "TYPENAME" (nameStr w)).data = mtForm (nameStr w).data (maskStr w).data := by
  have e1 : (strReplace MASK_TEMPLATE "TYPEMASK" (maskStr w)).data =
      mtForm "TYPENAME".data (maskStr w).data := by
    rw [strReplace_data]
    rw [mtForm_eq]
    exact mt_subst_q_pn (maskStr w).data
  have e2 : (strReplace (strReplace MASK_TEMPLATE "TYPEMASK" (maskStr w)) "TYPESIZE"
      (toString w)).data = mtForm "TYPENAME".data (maskStr w).data := by
    rw [strReplace_data]
    rw [e1]
    exact mt_vac_pv (toString w).data (maskStr w).data '0' (maskStr_head w) (by decide)
      (maskStr_noT w)
  rw [strReplace_data]
  rw [e2]
  exact mt_subst_pn_val (nameStr w).data (maskStr w).data '0' (maskStr_head w) (by decide)
    (maskStr_noT w)

theorem mt_chain_o5 (w : Nat) (hTn : 'T' ∉ (nameStr w).data) :
    (strReplace (strReplace (strReplace MASK_TEMPLATE "TYPESIZE" (toString w)) "TYPENAME"
      (nameStr w)) "TYPEMASK" (maskStr w)).data = mtForm (nameStr w).data (maskStr w).data := by
  have e1 : (strReplace MASK_TEMPLATE "TYPESIZE" (toString w)).data =
      mtForm "TYPENAME".data "TYPEMASK".data := by
    rw [strReplace_data]
    rw [mtForm_eq]
    exact mt_vac_pp (toString w).data
  have e2 : (strReplace (strReplace MASK_TEMPLATE "TYPESIZE" (toString w)) "TYPENAME"
      (nameStr w)).data = mtForm (nameStr w).data "TYPEMASK".data := by
    rw [strReplace_data]
    rw [e1]
    exact mt_subst_pn_q (nameStr w).data
  rw [strReplace_data]
  rw [e2]
  exact mt_subst_q_val (maskStr w).data (nameStr w).data 'U' (nameStr_head w) (by decide) hTn

theorem mt_chain_o6 (w : Nat) (hTn : 'T' ∉ (nameStr w).data) :
    (strReplace (strReplace (strReplace MASK_TEMPLATE "TYPESIZE" (toString w)) "TYPEMASK"
      (maskStr w)) "TYPENAME" (nameStr w)).data = mtForm (nameStr w).data (maskStr w).data := by
  have e1 : (strReplace MASK_TEMPLATE "TYPESIZE" (toString w)).data =
      mtForm "TYPENAME".data "TYPEMASK".data := by
    rw [strReplace_data]
    rw [mtForm_eq]
    exact mt_vac_pp (toString w).data
  have e2 : (strReplace (strReplace MASK_TEMPLATE "TYPESIZE" (toString w)) "TYPEMASK"
      (maskStr w)).data = mtForm "TYPENAME".data (maskStr w).data := by
    rw [strReplace_data]
    rw [e1]
    exact mt_subst_q_pn (maskStr w).data
  rw [strReplace_data]
  rw [e2]
  exact mt_subst_pn_val (nameStr w).data (maskStr w).data '0' (maskStr_head w) (by decide)
    (maskStr_noT w)

theorem mm_chain_o2 (w : Nat) (hTn : 'T' ∉ (nameStr w).data) (hTs : 'T' ∉ (toString w).data)
    (hsh : (toString w).data.head? = some (sizeHead w)) (hpm : sizeHead w ∉ "TYPEMASK".data) :
    (strReplace (strReplace (strReplace MINI_MASK_TEMPLATE "TYPENAME" (nameStr w)) "TYPESIZE"
      (toString w)) "TYPEMASK" (maskStr w)).data = mmForm (nameStr w).data (toString w).data := by
  have e1 : (strReplace MINI_MASK_TEMPLATE "TYPENAME" (nameStr w)).data =
      mmForm (nameStr w).data "TYPESIZE".data := by
    rw [strReplace_data]
    rw [mmForm_eq]
    exact mm_subst_pn_q (nameStr w).data
  have e2 : (strReplace (strReplace MINI_MASK_TEMPLATE "TYPENAME" (nameStr w)) "TYPESIZE"
      (toString w)).data = mmForm (nameStr w).data (toString w).data := by
    rw [strReplace_data]
    rw [e1]
    exact mm_subst_q_val (toString w).data (nameStr w).data 'U' (nameStr_head w) (by decide) hTn
  rw [strReplace_data]
  rw [e2]
  exact mm_vac_vv (maskStr w).data (nameStr w).data 'U' (nameStr_head w) (by decide) hTn
    (toString w).data (sizeHead w) hsh hpm hTs

theorem mm_chain_o3 (w : Nat) (hTn : 'T' ∉ (nameStr w).data) :
    (strReplace (strReplace (strReplace MINI_MASK_TEMPLATE "TYPEMASK" (maskStr w)) "TYPENAME"
      (nameStr w)) "TYPESIZE" (toString w)).data = mmForm (nameStr w).data (toString w).data := by
  have e1 : (strReplace MINI_MASK_TEMPLATE "TYPEMASK" (maskStr w)).data =
      mmForm "TYPENAME".data "TYPESIZE".data := by
    rw [strReplace_data]
    rw [mmForm_eq]
    exact mm_vac_pp (maskStr w).data
  have e2 : (strReplace (strReplace MINI_MASK_TEMPLATE "TYPEMASK" (maskStr w)) "TYPENAME"
      (nameStr w)).data = mmForm (nameStr w).data "TYPESIZE".data := by
    rw [strReplace_data]
    rw [e1]
    exact mm_subst_pn_q (nameStr w).data
  rw [strReplace_data]
  rw [e2]
  exact mm_subst_q_val (toString w).data (nameStr w).data 'U' (nameStr_head w) (by decide) hTn

theorem mm_chain_o4 (w : Nat) (hTn : 'T' ∉ (nameStr w).data) (hTs : 'T' ∉ (toString w).data)
    (hsh : (toString w).data.head? = some (sizeHead w)) (hpn : sizeHead w ∉ "TYPENAME".data) :
    (strReplace (strReplace (strReplace MINI_MASK_TEMPLATE "TYPEMASK" (maskStr w)) "TYPESIZE"
      (toString w)) "TYPENAME" (nameStr w)).data = mmForm (nameStr w).data (toString w).data := by
  have e1 : (strReplace MINI_MASK_TEMPLATE "TYPEMASK" (maskStr w)).data =
      mmForm "TYPENAME".data "TYPESIZE".data := by
    rw [strReplace_data]
    rw [mmForm_eq]
    exact mm_vac_pp (maskStr w).data
  have e2 : (strReplace (strReplace MINI_MASK_TEMPLATE "TYPEMASK" (maskStr w)) "TYPESIZE"
      (toString w)).data = mmForm "TYPENAME".data (toString w).data := by
    rw [strReplace_data]
    rw [e1]
    exact mm_subst_q_pn (toString w).data
  rw [strReplace_data]
  rw [e2]
  exact mm_subst_pn_val (nameStr w).data (toString w).data (sizeHead w) hsh hpn hTs

theorem mm_chain_o5 (w : Nat) (hTn : 'T' ∉ (nameStr w).data) (hTs : 'T' ∉ (toString w).data)
    (hsh : (toString w).data.head? = some (sizeHead w)) (hpn : sizeHead w ∉ "TYPENAME".data)
    (hpm : sizeHead w ∉ "TYPEMASK".data) :
    (strReplace (strReplace (strReplace MINI_MASK_TEMPLATE "TYPESIZE" (toString w)) "TYPENAME"
      (nameStr w)) "TYPEMASK" (maskStr w)).data = mmForm (nameStr w).data (toString w).data := by
  have e1 : (strReplace MINI_MASK_TEMPLATE "TYPESIZE" (toString w)).data =
      mmForm "TYPENAME".data (toString w).data := by
    rw [strReplace_data]
    rw [mmForm_eq]
    exact mm_subst_q_pn (toString w).data
  have e2 : (strReplace (strReplace MINI_MASK_TEMPLATE "TYPESIZE" (toString w)) "TYPENAME"
      (nameStr w)).data = mmForm (nameStr w).data (toString w).data := by
    rw [strReplace_data]
    rw [e1]
    exact mm_subst_pn_val (nameStr w).data (toString w).data (sizeHead w) hsh hpn hTs
  rw [strReplace_data]
  rw [e2]
  exact mm_vac_vv (maskStr w).data (nameStr w).data 'U' (nameStr_head w) (by decide) hTn
    (toString w).data (sizeHead w) hsh hpm hTs

theorem mm_chain_o6 (w : Nat) (hTn : 'T' ∉ (nameStr w).data) (hTs : 'T' ∉ (toString w).data)
    (hsh : (toString w).data.head? = some (sizeHead w)) (hpn : sizeHead w ∉ "TYPENAME".data)
    (hpm : sizeHead w ∉ "TYPEMASK".data) :
    (strReplace (strReplace (strReplace MINI_MASK_TEMPLATE "TYPESIZE" (toString w)) "TYPEMASK"
      (maskStr w)) "TYPENAME" (nameStr w)).data = mmForm (nameStr w).data (toString w).data := by
  have e1 : (strReplace MINI_MASK_TEMPLATE "TYPESIZE" (toString w)).data =
      mmForm "TYPENAME".data (toString w).data := by
    rw [strReplace_data]
    rw [mmForm_eq]
    exact mm_subst_q_pn (toString w).data
  have e2 : (strReplace (strReplace MINI_MASK_TEMPLATE "TYPESIZE" (toString w)) "TYPEMASK"
      (maskStr w)).data = mmForm "TYPENAME".data (toString w).data := by
    rw [strReplace_data]
    rw [e1]
    exact mm_vac_pv (maskStr w).data (toString w).data (sizeHead w) hsh hpm hTs
  rw [strReplace_data]
  rw [e2]
  exact mm_subst_pn_val (nameStr w).data (toString w).data (sizeHead w) hsh hpn hTs

theorem ht_nil (p : List Char) : ∀ c, ([] : List Char).head? = some c → c ∉ p := by
  intro c hc
  simp at hc

theorem ht_mmform (p a b : List Char) (h : '\n' ∉ p) :
    ∀ c, ((mmForm a b) ++ ([] : List Char)).head? = some c → c ∉ p := by
  intro c hc
  rw [head?_append_some (mmForm_head a b) _] at hc
  injection hc with e
  exact e ▸ h

theorem applySubs_three (tpl p1 r1 p2 r2 p3 r3 : String) :
    applySubs tpl [(p1, r1), (p2, r2), (p3, r3)] =
      strReplace (strReplace (strReplace tpl p1 r1) p2 r2) p3 r3 := rfl

theorem block_noOccur_pn (w : Nat) (hw : w ∈ int_sizes) :
    occursIn "TYPENAME".data (generate_cast w).data = false := by
  have hTn := noT_names w hw
  have hTs := noT_sizes w hw
  by_cases hlt : w < 32
  · rw [generate_cast_data_small w hlt hTn]
    exact occursIn_eq_false _ _
      (form9_noOccur _ _ _ _ _ _ _ _ _ _ _ _ _
        nmsN_mt_pn_0 nmsN_mt_pn_1 nmsN_mt_pn_2 nmsN_mt_pn_3 nmsN_mt_pn_4 nmsN_mt_pn_5
        nmsN_mt_pn_6 nmsN_mt_pn_7 nmsN_mt_pn_8
        (fun u => nms_all_of_head_notMem "TYPENAME".data 'T' rfl _ u hTn)
        (fun u => nms_all_of_head_notMem "TYPENAME".data 'T' rfl _ u (maskStr_noT w))
        'U' (nameStr_head w) (by decide) '0' (maskStr_head w) (by decide) (ht_nil _))
  · rw [generate_cast_data_big w hlt hTn]
    refine occursIn_eq_false _ _ (nms_append_intro _ _ _ _ ?_ ?_)
    · exact form9_noOccur _ _ _ _ _ _ _ _ _ _ _ _ _
        nmsN_mt_pn_0 nmsN_mt_pn_1 nmsN_mt_pn_2 nmsN_mt_pn_3 nmsN_mt_pn_4 nmsN_mt_pn_5
        nmsN_mt_pn_6 nmsN_mt_pn_7 nmsN_mt_pn_8
        (fun u => nms_all_of_head_notMem "TYPENAME".data 'T' rfl _ u hTn)
        (fun u => nms_all_of_head_notMem "TYPENAME".data 'T' rfl _ u (maskStr_noT w))
        'U' (nameStr_head w) (by decide) '0' (maskStr_head w) (by decide)
        (ht_mmform _ _ _ (by decide))
    · exact form9_noOccur _ _ _ _ _ _ _ _ _ _ _ _ _
        nmsN_mm_pn_0 nmsN_mm_pn_1 nmsN_mm_pn_2 nmsN_mm_pn_3 nmsN_mm_pn_4 nmsN_mm_pn_5
        nmsN_mm_pn_6 nmsN_mm_pn_7 nmsN_mm_pn_8
        (fun u => nms_all_of_head_notMem "TYPENAME".data 'T' rfl _ u hTn)
        (fun u => nms_all_of_head_notMem "TYPENAME".data 'T' rfl _ u hTs)
        'U' (nameStr_head w) (by decide) (sizeHead w) (sizeHead_eq w hw)
        (sizeHead_not_pn w hw) (ht_nil _)

theorem block_noOccur_pm (w : Nat) (hw : w ∈ int_sizes) :
    occursIn "TYPEMASK".data (generate_cast w).data = false := by
  have hTn := noT_names w hw
  have hTs := noT_sizes w hw
  by_cases hlt : w < 32
  · rw [generate_cast_data_small w hlt hTn]
    exact occursIn_eq_false _ _
      (form9_noOccur _ _ _ _ _ _ _ _ _ _ _ _ _
        nmsN_mt_pm_0 nmsN_mt_pm_1 nmsN_mt_pm_2 nmsN_mt_pm_3 nmsN_mt_pm_4 nmsN_mt_pm_5
        nmsN_mt_pm_6 nmsN_mt_pm_7 nmsN_mt_pm_8
        (fun u => nms_all_of_head_notMem "TYPEMASK".data 'T' rfl _ u hTn)
        (fun u => nms_all_of_head_notMem "TYPEMASK".data 'T' rfl _ u (maskStr_noT w))
        'U' (nameStr_head w) (by decide) '0' (maskStr_head w) (by decide) (ht_nil _))
  · rw [generate_cast_data_big w hlt hTn]
    refine occursIn_eq_false _ _ (nms_append_intro _ _ _ _ ?_ ?_)
    · exact form9_noOccur _ _ _ _ _ _ _ _ _ _ _ _ _
        nmsN_mt_pm_0 nmsN_mt_pm_1 nmsN_mt_pm_2 nmsN_mt_pm_3 nmsN_mt_pm_4 nmsN_mt_pm_5
        nmsN_mt_pm_6 nmsN_mt_pm_7 nmsN_mt_pm_8
        (fun u => nms_all_of_head_notMem "TYPEMASK".data 'T' rfl _ u hTn)
        (fun u => nms_all_of_head_notMem "TYPEMASK".data 'T' rfl _ u (maskStr_noT w))
        'U' (nameStr_head w) (by decide) '0' (maskStr_head w) (by decide)
        (ht_mmform _ _ _ (by decide))
    · exact form9_noOccur _ _ _ _ _ _ _ _ _ _ _ _ _
        nmsN_mm_pm_0 nmsN_mm_pm_1 nmsN_mm_pm_2 nmsN_mm_pm_3 nmsN_mm_pm_4 nmsN_mm_pm_5
        nmsN_mm_pm_6 nmsN_mm_pm_7 nmsN_mm_pm_8
        (fun u => nms_all_of_head_notMem "TYPEMASK".data 'T' rfl _ u hTn)
        (fun u => nms_all_of_head_notMem "TYPEMASK".data 'T' rfl _ u hTs)
        'U' (nameStr_head w) (by decide) (sizeHead w) (sizeHead_eq w hw)
        (sizeHead_not_pm w hw) (ht_nil _)

theorem block_noOccur_ps (w : Nat) (hw : w ∈ int_sizes) :
    occursIn "TYPESIZE".data (generate_cast w).data = false := by
  have hTn := noT_names w hw
  have hTs := noT_sizes w hw
  by_cases hlt : w < 32
  · rw [generate_cast_data_small w hlt hTn]
    exact occursIn_eq_false _ _
      (form9_noOccur _ _ _ _ _ _ _ _ _ _ _ _ _
        nmsN_mt_ps_0 nmsN_mt_ps_1 nmsN_mt_ps_2 nmsN_mt_ps_3 nmsN_mt_ps_4 nmsN_mt_ps_5
        nmsN_mt_ps_6 nmsN_mt_ps_7 nmsN_mt_ps_8
        (fun u => nms_all_of_head_notMem "TYPESIZE".data 'T' rfl _ u hTn)
        (fun u => nms_all_of_head_notMem "TYPESIZE".data 'T' rfl _ u (maskStr_noT w))
        'U' (nameStr_head w) (by decide) '0' (maskStr_head w) (by decide) (ht_nil _))
  · rw [generate_cast_data_big w hlt hTn]
    refine occursIn_eq_false _ _ (nms_append_intro _ _ _ _ ?_ ?_)
    · exact form9_noOccur _ _ _ _ _ _ _ _ _ _ _ _ _
        nmsN_mt_ps_0 nmsN_mt_ps_1 nmsN_mt_ps_2 nmsN_mt_ps_3 nmsN_mt_ps_4 nmsN_mt_ps_5
        nmsN_mt_ps_6 nmsN_mt_ps_7 nmsN_mt_ps_8
        (fun u => nms_all_of_head_notMem "TYPESIZE".data 'T' rfl _ u hTn)
        (fun u => nms_all_of_head_notMem "TYPESIZE".data 'T' rfl _ u (maskStr_noT w))
        'U' (nameStr_head w) (by decide) '0' (maskStr_head w) (by decide)
        (ht_mmform _ _ _ (by decide))
    · exact form9_noOccur _ _ _ _ _ _ _ _ _ _ _ _ _
        nmsN_mm_ps_0 nmsN_mm_ps_1 nmsN_mm_ps_2 nmsN_mm_ps_3 nmsN_mm_ps_4 nmsN_mm_ps_5
        nmsN_mm_ps_6 nmsN_mm_ps_7 nmsN_mm_ps_8
        (fun u => nms_all_of_head_notMem "TYPESIZE".data 'T' rfl _ u hTn)
        (fun u => nms_all_of_head_notMem "TYPESIZE".data 'T' rfl _ u hTs)
        'U' (nameStr_head w) (by decide) (sizeHead w) (sizeHead_eq w hw)
        (sizeHead_not_ps w hw) (ht_nil _)

/-- C7: for every width in the static list, placeholder substitution replaces
every occurrence of each of the three placeholders (none survives in the
generated block), and the order of the three distinct replacements is not
observable: every one of the six substitution orders produces exactly the
string produced by the source's order `TYPENAME`, `TYPEMASK`, `TYPESIZE`,
on both templates. -/
theorem C7_substitution_order (w : Nat) (hw : w ∈ int_sizes) :
    (∀ o ∈ substOrders (nameStr w) (maskStr w) (toString w),
        applySubs MASK_TEMPLATE o =
          strReplace (strReplace (strReplace MASK_TEMPLATE "TYPENAME" (nameStr w)) "TYPEMASK"
            (maskStr w)) "TYPESIZE" (toString w) ∧
        applySubs MINI_MASK_TEMPLATE o =
          strReplace (strReplace (strReplace MINI_MASK_TEMPLATE "TYPENAME" (nameStr w)) "TYPEMASK"
            (maskStr w)) "TYPESIZE" (toString w)) ∧
    occursIn "TYPENAME".data (generate_cast w).data = false ∧
    occursIn "TYPEMASK".data (generate_cast w).data = false ∧
    occursIn "TYPESIZE".data (generate_cast w).data = false := by
  have hTn := noT_names w hw
  have hTs := noT_sizes w hw
  have hsh := sizeHead_eq w hw
  have hpn := sizeHead_not_pn w hw
  have hpm := sizeHead_not_pm w hw
  refine ⟨?_, block_noOccur_pn w hw, block_noOccur_pm w hw, block_noOccur_ps w hw⟩
  intro o ho
  simp only [substOrders, List.mem_cons, List.not_mem_nil, or_false] at ho
  rcases ho with rfl | rfl | rfl | rfl | rfl | rfl
  · exact ⟨rfl, rfl⟩
  · constructor
    · refine str_ext _ _ ?_
      rw [applySubs_three]
      rw [mt_chain_o2 w hTn, mask_template_data w hTn]
    · refine str_ext _ _ ?_
      rw [applySubs_three]
      rw [mm_chain_o2 w hTn hTs hsh hpm, mini_template_data w hTn]
  · constructor
    · refine str_ext _ _ ?_
      rw [applySubs_three]
      rw [mt_chain_o3 w hTn, mask_template_data w hTn]
    · refine str_ext _ _ ?_
      rw [applySubs_three]
      rw [mm_chain_o3 w hTn, mini_template_data w hTn]
  · constructor
    · refine str_ext _ _ ?_
      rw [applySubs_three]
      rw [mt_chain_o4 w hTn, mask_template_data w hTn]
    · refine str_ext _ _ ?_
      rw [applySubs_three]
      rw [mm_chain_o4 w hTn hTs hsh hpn, mini_template_data w hTn]
  · constructor
    · refine str_ext _ _ ?_
      rw [applySubs_three]
      rw [mt_chain_o5 w hTn, mask_template_data w hTn]
    · refine str_ext _ _ ?_
      rw [applySubs_three]
      rw [mm_chain_o5 w hTn hTs hsh hpn hpm, mini_template_data w hTn]
  · constructor
    · refine str_ext _ _ ?_
      rw [applySubs_three]
      rw [mt_chain_o6 w hTn, mask_template_data w hTn]
    · refine str_ext _ _ ?_
      rw [applySubs_three]
      rw [mm_chain_o6 w hTn hTs hsh hpn hpm, mini_template_data w hTn]

/-- Witness for C7 at the concrete width 8. -/
theorem C7_substitution_order_witness :
    8 ∈ int_sizes ∧
    ((∀ o ∈ substOrders (nameStr 8) (maskStr 8) (toString 8),
        applySubs MASK_TEMPLATE o =
          strReplace (strReplace (strReplace MASK_TEMPLATE "TYPENAME" (nameStr 8)) "TYPEMASK"
            (maskStr 8)) "TYPESIZE" (toString 8) ∧
        applySubs MINI_MASK_TEMPLATE o =
          strReplace (strReplace (strReplace MINI_MASK_TEMPLATE "TYPENAME" (nameStr 8)) "TYPEMASK"
            (maskStr 8)) "TYPESIZE" (toString 8)) ∧
      occursIn "TYPENAME".data (generate_cast 8).data = false ∧
      occursIn "TYPEMASK".data (generate_cast 8).data = false ∧
      occursIn "TYPESIZE".data (generate_cast 8).data = false) :=
  ⟨by decide, C7_substitution_order 8 (by decide)⟩

/-! ### Line structure of generated text -/

theorem str_append_data (a b : String) : (a ++ b).data = a.data ++ b.data := rfl

theorem linesOf_nil : linesOf [] = [[]] := rfl

theorem linesOf_cons_nl (cs : List Char) : linesOf ('\n' :: cs) = [] :: linesOf cs := rfl

theorem linesOf_cons_other {c : Char} (h : beqC c '\n' = false) (cs : List Char) :
    linesOf (c :: cs) =
      List.casesOn (linesOf cs) [[c]] (fun l ls => (c :: l) :: ls) := by
  show (if beqC c '\n' then [] :: linesOf cs
    else List.casesOn (linesOf cs) [[c]] fun l ls => (c :: l) :: ls) = _
  simp [h]

theorem linesOf_ne_nil (s : List Char) : linesOf s ≠ [] := by
  induction s with
  | nil => simp [linesOf_nil]
  | cons c cs ih =>
    cases hb : beqC c '\n' with
    | true =>
      have hc : c = '\n' := (beqC_iff _ _).mp hb
      subst hc
      rw [linesOf_cons_nl]
      simp
    | false =>
      rw [linesOf_cons_other hb]
      cases linesOf cs <;> simp

theorem linesOf_append_nl (b : List Char) :
    ∀ a, linesOf (a ++ '\n' :: b) = linesOf a ++ linesOf b := by
  intro a
  induction a with
  | nil =>
    rw [List.nil_append, linesOf_cons_nl, linesOf_nil]
    rfl
  | cons c cs ih =>
    rw [List.cons_append]
    cases hb : beqC c '\n' with
    | true =>
      have hc : c = '\n' := (beqC_iff _ _).mp hb
      subst hc
      rw [linesOf_cons_nl, linesOf_cons_nl, ih, List.cons_append]
    | false =>
      rw [linesOf_cons_other hb, linesOf_cons_other hb cs, ih]
      cases hcs : linesOf cs with
      | nil => exact absurd hcs (linesOf_ne_nil cs)
      | cons l ls => simp [List.cons_append]

theorem macroNameOfLine_nil : macroNameOfLine [] = none := rfl

theorem dmn_cons_nl (x : List Char) : defMacroNamesL ('\n' :: x) = defMacroNamesL x := by
  rw [defMacroNamesL, linesOf_cons_nl, List.filterMap_cons, macroNameOfLine_nil]
  rfl

theorem dmn_append_nl (a b : List Char) :
    defMacroNamesL (a ++ '\n' :: b) = defMacroNamesL a ++ defMacroNamesL b := by
  rw [defMacroNamesL, linesOf_append_nl, List.filterMap_append]
  rfl

theorem dmn_split (a b : List Char) (hb : b.head? = some '\n') :
    defMacroNamesL (a ++ b) = defMacroNamesL a ++ defMacroNamesL b := by
  cases b with
  | nil => simp at hb
  | cons c b' =>
    have hc : c = '\n' := by simpa using hb
    subst hc
    rw [dmn_append_nl, dmn_cons_nl]

/-! ### Occurrence monotonicity -/

theorem isPre_mono (p : List Char) : ∀ s t, isPre p s = true → isPre p (s ++ t) = true := by
  induction p with
  | nil => intro s t _; exact isPre_nil _
  | cons a p' ih =>
    intro s t h
    cases s with
    | nil => rw [isPre_cons_nil] at h; exact absurd h (by simp)
    | cons d s' =>
      rw [isPre_cons_cons, Bool.and_eq_true] at h
      rw [List.cons_append, isPre_cons_cons, h.1, ih s' t h.2]
      rfl

theorem nms_weaken (p : List Char) : ∀ x t, noMatchScan p x t = true → noMatchScan p x [] = true := by
  intro x
  induction x with
  | nil => intro t _; rfl
  | cons c cs ih =>
    intro t h
    rw [nms_cons, Bool.and_eq_true] at h
    rw [nms_cons, Bool.and_eq_true]
    refine ⟨?_, ih t h.2⟩
    cases hin : isPre p (c :: (cs ++ [])) with
    | false => rfl
    | true =>
      have h1 : isPre p ((c :: (cs ++ [])) ++ t) = true := isPre_mono p _ t hin
      have h2 : (c :: (cs ++ [])) ++ t = c :: (cs ++ t) := by
        simp [List.cons_append]
      rw [h2] at h1
      rw [h1] at h
      simp at h

theorem occursIn_append_right (p a b : List Char) (h : occursIn p b = true) :
    occursIn p (a ++ b) = true := by
  rw [occursIn] at h ⊢
  rw [nms_append]
  cases hb : noMatchScan p b [] with
  | false => simp [hb]
  | true => rw [hb] at h; simp at h

theorem occursIn_append_left (p a b : List Char) (h : occursIn p a = true) :
    occursIn p (a ++ b) = true := by
  rw [occursIn] at h ⊢
  rw [nms_append]
  cases ha : noMatchScan p a (b ++ []) with
  | false => simp [ha]
  | true =>
    have hnil := nms_weaken p a (b ++ []) ha
    rw [hnil] at h
    simp at h

/-! ### Per-width macro-name inventories of the generated blocks -/

/-- The block for width 8 defines exactly the macros `blockNames 8`. -/
theorem dmnB_8 : defMacroNamesL (generate_cast 8).data = blockNames 8 := by
  rw [generate_cast_data_small 8 (by decide) (by decide!)]
  decide!

/-- The block for width 16 defines exactly the macros `blockNames 16`. -/
theorem dmnB_16 : defMacroNamesL (generate_cast 16).data = blockNames 16 := by
  rw [generate_cast_data_small 16 (by decide) (by decide!)]
  decide!

/-- The block for width 24 defines exactly the macros `blockNames 24`. -/
theorem dmnB_24 : defMacroNamesL (generate_cast 24).data = blockNames 24 := by
  rw [generate_cast_data_small 24 (by decide) (by decide!)]
  decide!

/-- The block for width 32 defines exactly the macros `blockNames 32`. -/
theorem dmnB_32 : defMacroNamesL (generate_cast 32).data = blockNames 32 := by
  rw [generate_cast_data_big 32 (by decide) (by decide!)]
  decide!

/-- The block for width 40 defines exactly the macros `blockNames 40`. -/
theorem dmnB_40 : defMacroNamesL (generate_cast 40).data = blockNames 40 := by
  rw [generate_cast_data_big 40 (by decide) (by decide!)]
  decide!

/-- The block for width 48 defines exactly the macros `blockNames 48`. -/
theorem dmnB_48 : defMacroNamesL (generate_cast 48).data = blockNames 48 := by
  rw [generate_cast_data_big 48 (by decide) (by decide!)]
  decide!

/-- The block for width 56 defines exactly the macros `blockNames 56`. -/
theorem dmnB_56 : defMacroNamesL (generate_cast 56).data = blockNames 56 := by
  rw [generate_cast_data_big 56 (by decide) (by decide!)]
  decide!

/-- The block for width 64 defines exactly the macros `blockNames 64`. -/
theorem dmnB_64 : defMacroNamesL (generate_cast 64).data = blockNames 64 := by
  rw [generate_cast_data_big 64 (by decide) (by decide!)]
  decide!

/-- The block for width 72 defines exactly the macros `blockNames 72`. -/
theorem dmnB_72 : defMacroNamesL (generate_cast 72).data = blockNames 72 := by
  rw [generate_cast_data_big 72 (by decide) (by decide!)]
  decide!

/-- The block for width 80 defines exactly the macros `blockNames 80`. -/
theorem dmnB_80 : defMacroNamesL (generate_cast 80).data = blockNames 80 := by
  rw [generate_cast_data_big 80 (by decide) (by decide!)]
  decide!

/-- The block for width 88 defines exactly the macros `blockNames 88`. -/
theorem dmnB_88 : defMacroNamesL (generate_cast 88).data = blockNames 88 := by
  rw [generate_cast_data_big 88 (by decide) (by decide!)]
  decide!

/-- The block for width 96 defines exactly the macros `blockNames 96`. -/
theorem dmnB_96 : defMacroNamesL (generate_cast 96).data = blockNames 96 := by
  rw [generate_cast_data_big 96 (by decide) (by decide!)]
  decide!

/-- The block for width 104 defines exactly the macros `blockNames 104`. -/
theorem dmnB_104 : defMacroNamesL (generate_cast 104).data = blockNames 104 := by
  rw [generate_cast_data_big 104 (by decide) (by decide!)]
  decide!

/-- The block for width 112 defines exactly the macros `blockNames 112`. -/
theorem dmnB_112 : defMacroNamesL (generate_cast 112).data = blockNames 112 := by
  rw [generate_cast_data_big 112 (by decide) (by decide!)]
  decide!

/-- The block for width 120 defines exactly the macros `blockNames 120`. -/
theorem dmnB_120 : defMacroNamesL (generate_cast 120).data = blockNames 120 := by
  rw [generate_cast_data_big 120 (by decide) (by decide!)]
  decide!

/-- The block for width 128 defines exactly the macros `blockNames 128`. -/
theorem dmnB_128 : defMacroNamesL (generate_cast 128).data = blockNames 128 := by
  rw [generate_cast_data_big 128 (by decide) (by decide!)]
  decide!

/-- The block for width 136 defines exactly the macros `blockNames 136`. -/
theorem dmnB_136 : defMacroNamesL (generate_cast 136).data = blockNames 136 := by
  rw [generate_cast_data_big 136 (by decide) (by decide!)]
  decide!

/-- The block for width 144 defines exactly the macros `blockNames 144`. -/
theorem dmnB_144 : defMacroNamesL (generate_cast 144).data = blockNames 144 := by
  rw [generate_cast_data_big 144 (by decide) (by decide!)]
  decide!

/-- The block for width 152 defines exactly the macros `blockNames 152`. -/
theorem dmnB_152 : defMacroNamesL (generate_cast 152).data = blockNames 152 := by
  rw [generate_cast_data_big 152 (by decide) (by decide!)]
  decide!

/-- The block for width 160 defines exactly the macros `blockNames 160`. -/
theorem dmnB_160 : defMacroNamesL (generate_cast 160).data = blockNames 160 := by
  rw [generate_cast_data_big 160 (by decide) (by decide!)]
  decide!

/-- The block for width 168 defines exactly the macros `blockNames 168`. -/
theorem dmnB_168 : defMacroNamesL (generate_cast 168).data = blockNames 168 := by
  rw [generate_cast_data_big 168 (by decide) (by decide!)]
  decide!

/-- The block for width 176 defines exactly the macros `blockNames 176`. -/
theorem dmnB_176 : defMacroNamesL (generate_cast 176).data = blockNames 176 := by
  rw [generate_cast_data_big 176 (by decide) (by decide!)]
  decide!

/-- The block for width 184 defines exactly the macros `blockNames 184`. -/
theorem dmnB_184 : defMacroNamesL (generate_cast 184).data = blockNames 184 := by
  rw [generate_cast_data_big 184 (by decide) (by decide!)]
  decide!

/-- The block for width 192 defines exactly the macros `blockNames 192`. -/
theorem dmnB_192 : defMacroNamesL (generate_cast 192).data = blockNames 192 := by
  rw [generate_cast_data_big 192 (by decide) (by decide!)]
  decide!

/-- The block for width 200 defines exactly the macros `blockNames 200`. -/
theorem dmnB_200 : defMacroNamesL (generate_cast 200).data = blockNames 200 := by
  rw [generate_cast_data_big 200 (by decide) (by decide!)]
  decide!

/-- The block for width 208 defines exactly the macros `blockNames 208`. -/
theorem dmnB_208 : defMacroNamesL (generate_cast 208).data = blockNames 208 := by
  rw [generate_cast_data_big 208 (by decide) (by decide!)]
  decide!

/-- The block for width 216 defines exactly the macros `blockNames 216`. -/
theorem dmnB_216 : defMacroNamesL (generate_cast 216).data = blockNames 216 := by
  rw [generate_cast_data_big 216 (by decide) (by decide!)]
  decide!

/-- The block for width 224 defines exactly the macros `blockNames 224`. -/
theorem dmnB_224 : defMacroNamesL (generate_cast 224).data = blockNames 224 := by
  rw [generate_cast_data_big 224 (by decide) (by decide!)]
  decide!

/-- The block for width 232 defines exactly the macros `blockNames 232`. -/
theorem dmnB_232 : defMacroNamesL (generate_cast 232).data = blockNames 232 := by
  rw [generate_cast_data_big 232 (by decide) (by decide!)]
  decide!

/-- The block for width 240 defines exactly the macros `blockNames 240`. -/
theorem dmnB_240 : defMacroNamesL (generate_cast 240).data = blockNames 240 := by
  rw [generate_cast_data_big 240 (by decide) (by decide!)]
  decide!

/-- The block for width 248 defines exactly the macros `blockNames 248`. -/
theorem dmnB_248 : defMacroNamesL (generate_cast 248).data = blockNames 248 := by
  rw [generate_cast_data_big 248 (by decide) (by decide!)]
  decide!

/-- The block for width 256 defines exactly the macros `blockNames 256`. -/
theorem dmnB_256 : defMacroNamesL (generate_cast 256).data = blockNames 256 := by
  rw [generate_cast_data_big 256 (by decide) (by decide!)]
  decide!

/-- The small-width block for width 8 never mentions the mini macro names. -/
theorem nominiB_8 : occursIn (miniMaskAccName 8) (generate_cast 8).data = false ∧
    occursIn (miniCastName 8) (generate_cast 8).data = false := by
  rw [generate_cast_data_small 8 (by decide) (by decide!)]
  decide!

/-- The small-width block for width 16 never mentions the mini macro names. -/
theorem nominiB_16 : occursIn (miniMaskAccName 16) (generate_cast 16).data = false ∧
    occursIn (miniCastName 16) (generate_cast 16).data = false := by
  rw [generate_cast_data_small 16 (by decide) (by decide!)]
  decide!

/-- The small-width block for width 24 never mentions the mini macro names. -/
theorem nominiB_24 : occursIn (miniMaskAccName 24) (generate_cast 24).data = false ∧
    occursIn (miniCastName 24) (generate_cast 24).data = false := by
  rw [generate_cast_data_small 24 (by decide) (by decide!)]
  decide!

/-- Every width of the static list yields a block defining exactly its
expected macro names. -/
theorem dmn_block (w : Nat) (hw : w ∈ int_sizes) :
    defMacroNamesL (generate_cast w).data = blockNames w := by
  simp only [int_sizes, List.mem_cons, List.not_mem_nil, or_false] at hw
  rcases hw with rfl|rfl|rfl|rfl|rfl|rfl|rfl|rfl|rfl|rfl|rfl|rfl|rfl|rfl|rfl|rfl|rfl|rfl|rfl|rfl|rfl|rfl|rfl|rfl|rfl|rfl|rfl|rfl|rfl|rfl|rfl|rfl
  · exact dmnB_8
  · exact dmnB_16
  · exact dmnB_24
  · exact dmnB_32
  · exact dmnB_40
  · exact dmnB_48
  · exact dmnB_56
  · exact dmnB_64
  · exact dmnB_72
  · exact dmnB_80
  · exact dmnB_88
  · exact dmnB_96
  · exact dmnB_104
  · exact dmnB_112
  · exact dmnB_120
  · exact dmnB_128
  · exact dmnB_136
  · exact dmnB_144
  · exact dmnB_152
  · exact dmnB_160
  · exact dmnB_168
  · exact dmnB_176
  · exact dmnB_184
  · exact dmnB_192
  · exact dmnB_200
  · exact dmnB_208
  · exact dmnB_216
  · exact dmnB_224
  · exact dmnB_232
  · exact dmnB_240
  · exact dmnB_248
  · exact dmnB_256

/-! ### Locating fixed text inside the generated blocks -/

theorem occursIn_of_isPre (p s : List Char) (hp : p ≠ []) (h : isPre p s = true) :
    occursIn p s = true := by
  cases s with
  | nil => rw [isPre_of_ne_nil hp] at h; exact absurd h (by simp)
  | cons c cs =>
    rw [occursIn, nms_cons]
    have hx : cs ++ ([] : List Char) = cs := List.append_nil cs
    rw [hx, h]
    simp

theorem mtForm_head (a b : List Char) : (mtForm a b).head? = some '\n' := by
  show (mtSeg0.data ++ _).head? = _
  exact head?_append_some (show mtSeg0.data.head? = some '\n' from rfl) _

theorem block_head (w : Nat) (hTn : 'T' ∉ (nameStr w).data) :
    (generate_cast w).data.head? = some '\n' := by
  by_cases hlt : w < 32
  · rw [generate_cast_data_small w hlt hTn]
    exact mtForm_head _ _
  · rw [generate_cast_data_big w hlt hTn]
    exact head?_append_some (mtForm_head _ _) _

theorem fB_in_seg8 : occursIn failBranch.data mtSeg8.data = true := by decide!

theorem mtForm_occursIn_seg8 (p a b : List Char) (h : occursIn p mtSeg8.data = true) :
    occursIn p (mtForm a b) = true := by
  rw [mtForm, form9]
  iterate 16 apply occursIn_append_right
  exact h

theorem block_failBranch (w : Nat) (hTn : 'T' ∉ (nameStr w).data) :
    occursIn failBranch.data (generate_cast w).data = true := by
  by_cases hlt : w < 32
  · rw [generate_cast_data_small w hlt hTn]
    exact mtForm_occursIn_seg8 _ _ _ fB_in_seg8
  · rw [generate_cast_data_big w hlt hTn]
    exact occursIn_append_left _ _ _ (mtForm_occursIn_seg8 _ _ _ fB_in_seg8)

theorem checked_line (w : Nat) (hTn : 'T' ∉ (nameStr w).data) :
    occursIn ("#define macro TO_" ++ nameStr w ++ "() = takes (1) returns (1) \x7b").data
      (generate_cast w).data = true := by
  have hT : ("#define macro TO_" ++ nameStr w ++ "() = takes (1) returns (1) \x7b").data =
      ("#define macro TO_" : String).data ++
        ((nameStr w).data ++ ("() = takes (1) returns (1) \x7b" : String).data) := by
    simp [str_append_data]
  have key : ∀ a b : List Char,
      occursIn (("#define macro TO_" : String).data ++
        (a ++ ("() = takes (1) returns (1) \x7b" : String).data)) (mtForm a b) = true := by
    intro a b
    have h6 : mtSeg6.data = ("` macro will not revert on overflow.\n" : String).data ++
        ("#define macro TO_" : String).data := by decide!
    have h7 : mtSeg7.data = ("() = takes (1) returns (1) \x7b" : String).data ++
        ("\n    // takes:               // [value]\n    dup1                    // [value, value]\n    " : String).data := by decide!
    rw [mtForm, form9, h6, h7]
    iterate 12 apply occursIn_append_right
    have e : (("` macro will not revert on overflow.\n" : String).data ++
          ("#define macro TO_" : String).data) ++
        (a ++ ((("() = takes (1) returns (1) \x7b" : String).data ++
          ("\n    // takes:               // [value]\n    dup1                    // [value, value]\n    " : String).data) ++ (a ++ mtSeg8.data))) =
        ("` macro will not revert on overflow.\n" : String).data ++
          ((("#define macro TO_" : String).data ++
            (a ++ ("() = takes (1) returns (1) \x7b" : String).data)) ++
          (("\n    // takes:               // [value]\n    dup1                    // [value, value]\n    " : String).data ++ (a ++ mtSeg8.data))) := by
      simp [List.append_assoc]
    rw [e]
    apply occursIn_append_right
    refine occursIn_of_isPre _ _ ?_ (isPre_self_append _ _)
    intro hcon
    exact (by decide! : ("#define macro TO_" : String).data ≠ [])
      (List.append_eq_nil.mp hcon).1
  rw [hT]
  by_cases hlt : w < 32
  · rw [generate_cast_data_small w hlt hTn]
    exact key _ _
  · rw [generate_cast_data_big w hlt hTn]
    exact occursIn_append_left _ _ _ (key _ _)

theorem mini_def_line (w : Nat) :
    isPre ("#define macro UNSAFE_MINI_TO_" ++ nameStr w ++
      "() = takes (0) returns (0) \x7b").data (miniCastDef w).data = true := by
  have h7 : mmSeg7.data = ("() = takes (0) returns (0) \x7b" : String).data ++
      ("\n    // takes:               // [value]\n    MINI_" : String).data := by decide!
  have e : (miniCastDef w).data =
      ("#define macro UNSAFE_MINI_TO_" ++ nameStr w ++
        "() = takes (0) returns (0) \x7b").data ++
        (("\n    // takes:               // [value]\n    MINI_" : String).data ++
          ((nameStr w).data ++ mmSeg8.data)) := by
    show (("#define macro UNSAFE_MINI_TO_" ++ nameStr w ++ mmSeg7 ++ nameStr w ++
      mmSeg8) : String).data = _
    simp [str_append_data, h7, List.append_assoc]
  rw [e]
  exact isPre_self_append _ _

theorem gc_split (w : Nat) (hw : ¬ w < 32) (hTn : 'T' ∉ (nameStr w).data) :
    (generate_cast w).data =
      (mtForm (nameStr w).data (maskStr w).data ++
        (mmSeg0.data ++ ((nameStr w).data ++ (mmSeg1.data ++ ((nameStr w).data ++
          (mmSeg2.data ++ ((nameStr w).data ++ (mmSeg3.data ++ ((toString w).data ++
            (mmSeg4.data ++ ((nameStr w).data ++ (mmSeg5.data ++ ((nameStr w).data ++
              ("` macro will not revert on overflow.\n" : String).data))))))))))))) ++
        (miniCastDef w).data := by
  have h6 : mmSeg6.data = ("` macro will not revert on overflow.\n" : String).data ++
      ("#define macro UNSAFE_MINI_TO_" : String).data := by decide!
  rw [generate_cast_data_big w hw hTn, mmForm, form9, h6]
  simp [miniCastDef, str_append_data, List.append_assoc]

theorem mini_no_revert : ∀ w ∈ int_sizes,
    occursIn "revert".data (miniCastDef w).data = false := by decide!

theorem mini_body_facts : ∀ w ∈ int_sizes,
    occursIn ("MINI_" ++ nameStr w ++ "_MASK()").data (miniCastDef w).data = true ∧
    occursIn "and".data (miniCastDef w).data = true ∧
    occursIn "// [value]".data (miniCastDef w).data = true ∧
    occursIn "// [masked_value]".data (miniCastDef w).data = true := by decide!

/-! ### Macro names of the whole document -/

theorem dmn_HEADER : defMacroNamesL HEADER.data = [] := by decide!

theorem dmn_ERROR : defMacroNamesL ERROR_DEFINITION.data = [] := by decide!

theorem dmn_MMD : defMacroNamesL MINI_MASK_DEFINITION.data = ["__MINI_MASK".data] := by decide!

theorem dmn_join (sizes : List Nat) : (∀ w ∈ sizes, w ∈ int_sizes) →
    defMacroNamesL (joinSep "\n" (sizes.map generate_cast)).data =
      (sizes.map blockNames).join := by
  induction sizes with
  | nil => intro _; rfl
  | cons x t ih =>
    intro h
    cases t with
    | nil =>
      rw [List.map_cons, List.map_nil, joinSep_single, dmn_block x (h x (by simp))]
      simp
    | cons y u =>
      have hnl : ("\n" : String).data = ['\n'] := rfl
      have e : (joinSep "\n" ((x :: y :: u).map generate_cast)).data =
          (generate_cast x).data ++
            ('\n' :: (joinSep "\n" ((y :: u).map generate_cast)).data) := by
        rw [List.map_cons, List.map_cons, joinSep_cons]
        simp [str_append_data, hnl, List.append_assoc, List.map_cons]
      rw [e, dmn_append_nl, dmn_block x (h x (by simp)),
        ih (fun w hw => h w (by simp [hw]))]
      simp

theorem joinSep_blocks_head (x : Nat) (l : List Nat) (hTn : 'T' ∉ (nameStr x).data) :
    (joinSep "\n" ((x :: l).map generate_cast)).data.head? = some '\n' := by
  cases l with
  | nil =>
    rw [List.map_cons, List.map_nil, joinSep_single]
    exact block_head x hTn
  | cons y u =>
    rw [List.map_cons, List.map_cons, joinSep_cons]
    show (((generate_cast x ++ "\n") ++ _).data).head? = _
    rw [str_append_data, str_append_data]
    exact head?_append_some (head?_append_some (block_head x hTn) _) _

theorem dmn_doc_of (sizes : List Nat) (h : ∀ w ∈ sizes, w ∈ int_sizes) :
    defMacroNames (generate_libcast_of sizes) =
      (sizes.map blockNames).join ++ ["__MINI_MASK".data] := by
  have hdata : (generate_libcast_of sizes).data =
      HEADER.data ++ (ERROR_DEFINITION.data ++
        ((joinSep "\n" (sizes.map generate_cast)).data ++ MINI_MASK_DEFINITION.data)) := by
    show ((HEADER ++ ERROR_DEFINITION ++ joinSep "\n" (sizes.map generate_cast) ++
      MINI_MASK_DEFINITION) : String).data = _
    simp [str_append_data, List.append_assoc]
  have hE : ERROR_DEFINITION.data.head? = some '\n' := rfl
  have hM : MINI_MASK_DEFINITION.data.head? = some '\n' := rfl
  have hJM : ((joinSep "\n" (sizes.map generate_cast)).data ++
      MINI_MASK_DEFINITION.data).head? = some '\n' := by
    cases sizes with
    | nil => exact hM
    | cons x t =>
      exact head?_append_some (joinSep_blocks_head x t (noT_names x (h x (by simp)))) _
  have hEr : (ERROR_DEFINITION.data ++ ((joinSep "\n" (sizes.map generate_cast)).data ++
      MINI_MASK_DEFINITION.data)).head? = some '\n' := head?_append_some hE _
  rw [defMacroNames, hdata, dmn_split _ _ hEr, dmn_split _ _ hJM, dmn_split _ _ hM,
    dmn_HEADER, dmn_ERROR, dmn_MMD, dmn_join sizes h]
  simp

theorem dmn_doc : defMacroNames generate_libcast =
    (int_sizes.map blockNames).join ++ ["__MINI_MASK".data] := by
  have h : generate_libcast = generate_libcast_of int_sizes := rfl
  rw [h]
  exact dmn_doc_of int_sizes (fun _ hw => hw)

/-! ### Claim C2: presence and absence of the mini block per width -/

/-- C2: for a width below 32 the generated block defines exactly the mask
accessor `U{w}_MASK` and the checked cast `TO_U{w}` and never mentions the
mini-mask or mini-cast names; for a width of 32 or more it defines exactly
those two plus one mini-mask macro `MINI_U{w}_MASK` and one mini-cast macro
`UNSAFE_MINI_TO_U{w}` (each counted once); width 8 yields type name `U8`
and mask `0xff`. -/
theorem C2_mini_block_presence (w : Nat) (hw : w ∈ int_sizes) :
    (w < 32 →
      defMacroNamesL (generate_cast w).data = [maskAccName w, castName w] ∧
      occursIn (miniMaskAccName w) (generate_cast w).data = false ∧
      occursIn (miniCastName w) (generate_cast w).data = false) ∧
    (32 ≤ w →
      defMacroNamesL (generate_cast w).data =
        [maskAccName w, castName w, miniMaskAccName w, miniCastName w] ∧
      (defMacroNamesL (generate_cast w).data).count (miniMaskAccName w) = 1 ∧
      (defMacroNamesL (generate_cast w).data).count (miniCastName w) = 1 ∧
      (defMacroNamesL (generate_cast w).data).count (maskAccName w) = 1 ∧
      (defMacroNamesL (generate_cast w).data).count (castName w) = 1) ∧
    nameStr 8 = "U8" ∧ maskStr 8 = "0xff" ∧
    maskAccName 8 = "U8_MASK".data ∧ castName 8 = "TO_U8".data := by
  simp only [int_sizes, List.mem_cons, List.not_mem_nil, or_false] at hw
  rcases hw with rfl|rfl|rfl|rfl|rfl|rfl|rfl|rfl|rfl|rfl|rfl|rfl|rfl|rfl|rfl|rfl|rfl|rfl|rfl|rfl|rfl|rfl|rfl|rfl|rfl|rfl|rfl|rfl|rfl|rfl|rfl|rfl
  · obtain ⟨n1, n2⟩ := nominiB_8
    rw [dmnB_8, n1, n2]
    decide!
  · obtain ⟨n1, n2⟩ := nominiB_16
    rw [dmnB_16, n1, n2]
    decide!
  · obtain ⟨n1, n2⟩ := nominiB_24
    rw [dmnB_24, n1, n2]
    decide!
  · rw [dmnB_32]
    decide!
  · rw [dmnB_40]
    decide!
  · rw [dmnB_48]
    decide!
  · rw [dmnB_56]
    decide!
  · rw [dmnB_64]
    decide!
  · rw [dmnB_72]
    decide!
  · rw [dmnB_80]
    decide!
  · rw [dmnB_88]
    decide!
  · rw [dmnB_96]
    decide!
  · rw [dmnB_104]
    decide!
  · rw [dmnB_112]
    decide!
  · rw [dmnB_120]
    decide!
  · rw [dmnB_128]
    decide!
  · rw [dmnB_136]
    decide!
  · rw [dmnB_144]
    decide!
  · rw [dmnB_152]
    decide!
  · rw [dmnB_160]
    decide!
  · rw [dmnB_168]
    decide!
  · rw [dmnB_176]
    decide!
  · rw [dmnB_184]
    decide!
  · rw [dmnB_192]
    decide!
  · rw [dmnB_200]
    decide!
  · rw [dmnB_208]
    decide!
  · rw [dmnB_216]
    decide!
  · rw [dmnB_224]
    decide!
  · rw [dmnB_232]
    decide!
  · rw [dmnB_240]
    decide!
  · rw [dmnB_248]
    decide!
  · rw [dmnB_256]
    decide!

/-- Witness for C2 at the concrete width 8. -/
theorem C2_mini_block_presence_witness :
    8 ∈ int_sizes ∧
    ((8 < 32 →
      defMacroNamesL (generate_cast 8).data = [maskAccName 8, castName 8] ∧
      occursIn (miniMaskAccName 8) (generate_cast 8).data = false ∧
      occursIn (miniCastName 8) (generate_cast 8).data = false) ∧
    (32 ≤ 8 →
      defMacroNamesL (generate_cast 8).data =
        [maskAccName 8, castName 8, miniMaskAccName 8, miniCastName 8] ∧
      (defMacroNamesL (generate_cast 8).data).count (miniMaskAccName 8) = 1 ∧
      (defMacroNamesL (generate_cast 8).data).count (miniCastName 8) = 1 ∧
      (defMacroNamesL (generate_cast 8).data).count (maskAccName 8) = 1 ∧
      (defMacroNamesL (generate_cast 8).data).count (castName 8) = 1) ∧
    nameStr 8 = "U8" ∧ maskStr 8 = "0xff" ∧
    maskAccName 8 = "U8_MASK".data ∧ castName 8 = "TO_U8".data) :=
  ⟨by decide, C2_mini_block_presence 8 (by decide)⟩


/-! ### Claim C4: the Overflow failure branch and the non-reverting mini cast -/

theorem mm_not_in_blockNames : ∀ w ∈ int_sizes, "__MINI_MASK".data ∉ blockNames w := by decide!

theorem count_mm_join (sizes : List Nat) (h : ∀ w ∈ sizes, w ∈ int_sizes) :
    ((sizes.map blockNames).join).count "__MINI_MASK".data = 0 := by
  rw [List.count_eq_zero]
  intro hmem
  rw [List.mem_join] at hmem
  obtain ⟨l, hl, hml⟩ := hmem
  rw [List.mem_map] at hl
  obtain ⟨w, hws, rfl⟩ := hl
  exact absurd hml (mm_not_in_blockNames w (h w hws))

/-- C4: every width's block contains the checked cast's failure branch, which
stores the `__ERROR(Overflow)` selector at offset `0x00` via `mstore` and
reverts with the 4 bytes at `0x00`; the error identifier matches the single
`#define error Overflow()` definition; and for widths with a mini block the
emitted mini-cast definition (the tail of the block) contains no `revert` and
only masks via the mini mask accessor and `and`. -/
theorem C4_overflow_failure (w : Nat) (hw : w ∈ int_sizes) :
    occursIn failBranch.data (generate_cast w).data = true ∧
    occursIn "__ERROR(Overflow)".data failBranch.data = true ∧
    occursIn "0x00                // [ptr, err]\n        mstore".data failBranch.data = true ∧
    occursIn "0x04                // [err_len]\n        0x00                // [ptr, err_len]\n        revert".data failBranch.data = true ∧
    occursIn "#define error Overflow()".data ERROR_DEFINITION.data = true ∧
    (32 ≤ w → ∃ pre, (generate_cast w).data = pre ++ (miniCastDef w).data ∧
      occursIn "revert".data (miniCastDef w).data = false ∧
      occursIn ("MINI_" ++ nameStr w ++ "_MASK()").data (miniCastDef w).data = true ∧
      occursIn "and".data (miniCastDef w).data = true) := by
  have hTn := noT_names w hw
  refine ⟨block_failBranch w hTn, by decide!, by decide!, by decide!, by decide!, ?_⟩
  intro h32
  exact ⟨_, gc_split w (by omega) hTn, mini_no_revert w hw,
    (mini_body_facts w hw).1, (mini_body_facts w hw).2.1⟩

/-- Witness for C4 at the concrete width 256. -/
theorem C4_overflow_failure_witness :
    256 ∈ int_sizes ∧
    (occursIn failBranch.data (generate_cast 256).data = true ∧
    occursIn "__ERROR(Overflow)".data failBranch.data = true ∧
    occursIn "0x00                // [ptr, err]\n        mstore".data failBranch.data = true ∧
    occursIn "0x04                // [err_len]\n        0x00                // [ptr, err_len]\n        revert".data failBranch.data = true ∧
    occursIn "#define error Overflow()".data ERROR_DEFINITION.data = true ∧
    (32 ≤ 256 → ∃ pre, (generate_cast 256).data = pre ++ (miniCastDef 256).data ∧
      occursIn "revert".data (miniCastDef 256).data = false ∧
      occursIn ("MINI_" ++ nameStr 256 ++ "_MASK()").data (miniCastDef 256).data = true ∧
      occursIn "and".data (miniCastDef 256).data = true)) :=
  ⟨by decide, C4_overflow_failure 256 (by decide)⟩

/-! ### Claim C5: the shared helper is emitted exactly once, last -/

/-- C5: for any selection of widths from the static list the document's
defined macro names are the per-width names followed by a final single
`__MINI_MASK`, so the shared helper appears exactly once, after the last
per-width block, independently of how many widths are processed; in
particular this holds for the actual document. -/
theorem C5_shared_helper_once (sizes : List Nat) (h : ∀ w ∈ sizes, w ∈ int_sizes) :
    defMacroNames (generate_libcast_of sizes) =
      (sizes.map blockNames).join ++ ["__MINI_MASK".data] ∧
    (defMacroNames (generate_libcast_of sizes)).count "__MINI_MASK".data = 1 ∧
    defMacroNames generate_libcast =
      (int_sizes.map blockNames).join ++ ["__MINI_MASK".data] ∧
    (defMacroNames generate_libcast).count "__MINI_MASK".data = 1 := by
  refine ⟨dmn_doc_of sizes h, ?_, dmn_doc, ?_⟩
  · rw [dmn_doc_of sizes h, List.count_append, count_mm_join sizes h]
    decide!
  · rw [dmn_doc, List.count_append, count_mm_join int_sizes (fun _ hw => hw)]
    decide!

/-- Witness for C5 at the concrete width selection `[8, 256]`. -/
theorem C5_shared_helper_once_witness :
    (∀ w ∈ [8, 256], w ∈ int_sizes) ∧
    (defMacroNames (generate_libcast_of [8, 256]) =
      (([8, 256] : List Nat).map blockNames).join ++ ["__MINI_MASK".data] ∧
    (defMacroNames (generate_libcast_of [8, 256])).count "__MINI_MASK".data = 1 ∧
    defMacroNames generate_libcast =
      (int_sizes.map blockNames).join ++ ["__MINI_MASK".data] ∧
    (defMacroNames generate_libcast).count "__MINI_MASK".data = 1) :=
  ⟨by decide, C5_shared_helper_once [8, 256] (by decide)⟩

/-! ### Claim C6: all defined macro names are unique -/

/-- C6: the macro names defined across the whole generated document are
pairwise distinct: no width collision and no duplicate emission of the
shared helper. -/
theorem C6_unique_names : (defMacroNames generate_libcast).Nodup := by
  rw [dmn_doc]
  decide!

/-! ### Claim C9: header API names that are never defined -/

/-- C9: the header's API listing mentions `UNSAFE_TO_TYPENAME` and
`MINI_TO_TYPENAME`, yet for no width does the document define a macro named
`UNSAFE_TO_U\x7bw\x7d` or `MINI_TO_U\x7bw\x7d`; the cast macros actually defined are
`TO_U\x7bw\x7d` (every width) and `UNSAFE_MINI_TO_U\x7bw\x7d` (only widths ≥ 32). -/
theorem C9_header_names :
    occursIn "`UNSAFE_TO_TYPENAME`".data HEADER.data = true ∧
    occursIn "`MINI_TO_TYPENAME`".data HEADER.data = true ∧
    ∀ w ∈ int_sizes,
      ("UNSAFE_TO_" ++ nameStr w).data ∉ defMacroNames generate_libcast ∧
      ("MINI_TO_" ++ nameStr w).data ∉ defMacroNames generate_libcast ∧
      castName w ∈ defMacroNames generate_libcast ∧
      (32 ≤ w → miniCastName w ∈ defMacroNames generate_libcast) ∧
      (w < 32 → miniCastName w ∉ defMacroNames generate_libcast) := by
  rw [dmn_doc]
  decide!

/-! ### Claim C10: the arity annotations of the two cast macros -/

/-- C10: every width's checked cast is defined with arity
`takes (1) returns (1)`, while every emitted mini cast is defined with arity
`takes (0) returns (0)`, even though the mini cast's body's stack comments
show one value consumed (`// [value]`) and one produced
(`// [masked_value]`). -/
theorem C10_mini_arity (w : Nat) (hw : w ∈ int_sizes) :
    occursIn ("#define macro TO_" ++ nameStr w ++ "() = takes (1) returns (1) \x7b").data
      (generate_cast w).data = true ∧
    (32 ≤ w →
      isPre ("#define macro UNSAFE_MINI_TO_" ++ nameStr w ++
        "() = takes (0) returns (0) \x7b").data (miniCastDef w).data = true ∧
      (∃ pre2, (generate_cast w).data = pre2 ++ (miniCastDef w).data) ∧
      occursIn "// [value]".data (miniCastDef w).data = true ∧
      occursIn "// [masked_value]".data (miniCastDef w).data = true) := by
  have hTn := noT_names w hw
  refine ⟨checked_line w hTn, fun h32 => ?_⟩
  exact ⟨mini_def_line w, ⟨_, gc_split w (by omega) hTn⟩,
    (mini_body_facts w hw).2.2.1, (mini_body_facts w hw).2.2.2⟩

/-- Witness for C10 at the concrete width 32. -/
theorem C10_mini_arity_witness :
    32 ∈ int_sizes ∧
    (occursIn ("#define macro TO_" ++ nameStr 32 ++ "() = takes (1) returns (1) \x7b").data
      (generate_cast 32).data = true ∧
    (32 ≤ 32 →
      isPre ("#define macro UNSAFE_MINI_TO_" ++ nameStr 32 ++
        "() = takes (0) returns (0) \x7b").data (miniCastDef 32).data = true ∧
      (∃ pre2, (generate_cast 32).data = pre2 ++ (miniCastDef 32).data) ∧
      occursIn "// [value]".data (miniCastDef 32).data = true ∧
      occursIn "// [masked_value]".data (miniCastDef 32).data = true)) :=
  ⟨by decide, C10_mini_arity 32 (by decide)⟩
